import Mathlib

/-!
# CM6206init: activation of C-Media CM6206 USB audio adaptors

A shallow embedding of `CM6206init/main.c`.  The program is a sequence of calls
into the platform (IOKit, CoreFoundation, libc).  A function of the source is
embedded as a Lean function that takes the results the platform gives to the calls
it makes and returns the value the C function computes together with the trace of
the platform calls it issues, in program order.  `ErrorName` is not transcribed:
the text it produces is carried as an argument of the diagnostic that shows it.
`SignalHandler` is not embedded.  The callbacks `DeviceAdded`, `DeviceNotification`
and `powerCallback` are functions of their own; `main` covers the start-up up to
`CFRunLoopRun`.

* `IOReturn` / `kern_return_t` values are integers; a test `if (err)` is `err ≠ 0`.
* Pointers and object references are natural numbers; `0` is `NULL`.
* Output written with `fprintf(stderr, ...)` / `printf(...)` is an event carrying
  the format string and the arguments.
* The `#ifdef VERBOSE` blocks are not embedded: the source leaves `VERBOSE`
  undefined (`//#define VERBOSE`).
-/

namespace CM6206

/-! ## Data model -/

/-- Status code of a platform call (`IOReturn`, `kern_return_t`); zero is success. -/
abbrev IOReturn := Int

/-- An argument of a `printf`-style call. -/
inductive Arg where
  | int (v : Int)
  | str (s : String)
  | ptr (p : Nat)
  /-- The text that `ErrorName (err, buf)` leaves in `buf`. -/
  | errorName (err : IOReturn)
  deriving DecidableEq, Repr

/-- The fields of `IOUSBDevRequest` that `writeCM6206Registers` sets.  `pData` is
the content of the buffer it points to, one entry per byte; `none` is a byte the
program never initialised. -/
structure IOUSBDevRequest where
  bmRequestType : Nat
  bRequest : Nat
  wValue : Nat
  wIndex : Nat
  wLength : Nat
  pData : List (Option Nat)
  deriving DecidableEq, Repr

/-- The four filter fields of `IOUSBFindInterfaceRequest`. -/
structure IOUSBFindInterfaceRequest where
  bInterfaceClass : Nat
  bInterfaceSubClass : Nat
  bInterfaceProtocol : Nat
  bAlternateSetting : Nat
  deriving DecidableEq, Repr

/-- The plug-in type handed to `IOCreatePlugInInterfaceForService`. -/
inductive PlugInType where
  | kIOUSBDeviceUserClientTypeID
  | kIOUSBInterfaceUserClientTypeID
  deriving DecidableEq, Repr

/-- The interface identifier handed to `QueryInterface`. -/
inductive InterfaceID where
  | kIOUSBDeviceInterfaceID197
  | kIOUSBInterfaceInterfaceID183
  deriving DecidableEq, Repr

/-- One call into the platform.  Calls on a plug-in, device or interface object
carry the pointer they are made on; `IOIteratorNext` carries the reference it
returned. -/
inductive Event where
  | fprintf_stderr (fmt : String) (args : List Arg)
  | printf (fmt : String) (args : List Arg)
  | sleep (seconds : Nat)
  | ControlRequest (intf : Nat) (pipeNo : Nat) (req : IOUSBDevRequest)
  | ClearPipeStall (intf : Nat) (pipeNo : Nat)
  | IOCreatePlugInInterfaceForService (service : Nat) (pluginType : PlugInType)
  | QueryInterface (iodev : Nat) (iid : InterfaceID)
  | PlugInRelease (iodev : Nat)
  | USBInterfaceOpen (intf : Nat)
  | USBInterfaceOpenSeize (intf : Nat)
  | USBInterfaceClose (intf : Nat)
  | InterfaceRelease (intf : Nat)
  | USBDeviceOpen (dev : Nat)
  | GetNumberOfConfigurations (dev : Nat)
  | GetConfigurationDescriptorPtr (dev : Nat) (index : Nat)
  | SetConfiguration (dev : Nat) (value : Nat)
  | CreateInterfaceIterator (dev : Nat) (req : IOUSBFindInterfaceRequest)
  | USBDeviceClose (dev : Nat)
  | DeviceRelease (dev : Nat)
  | IOIteratorNext (iterator : Nat) (result : Nat)
  | IOObjectRelease (object : Nat)
  | IOMasterPort
  | IOServiceMatching
  | CFNumberCreate (value : Int)
  | CFDictionaryAddValue (dict : Nat) (key : String) (value : Nat)
  | CFRelease (ref : Nat)
  | IOServiceGetMatchingServices (masterPort : Nat) (matching : Nat)
  | mach_port_deallocate (port : Nat)
  | IOAllowPowerChange (kernelPort : Nat) (notificationID : Nat)
  | CFShow (obj : Nat)
  | malloc (block : Nat)
  | bzero (block : Nat)
  | free (block : Nat)
  | IORegistryEntryGetName (entry : Nat)
  | CFStringCreateWithCString (cStr : String)
  | IOServiceAddInterestNotification (notifyPort : Nat) (service : Nat) (refCon : Nat)
  | signal (sig : Nat)
  | IONotificationPortCreate
  | IONotificationPortGetRunLoopSource (port : Nat)
  | CFRunLoopGetCurrent
  | CFRunLoopAddSource (runLoop : Nat) (source : Nat)
  | IOServiceAddMatchingNotification (notifyPort : Nat) (matching : Nat)
  | IORegisterForSystemPower
  | CFRunLoopRun
  deriving DecidableEq, Repr

/-! ## Platform constants -/

/-- Modelled from the spec: the pipe-stalled status code, `kIOUSBPipeStalled` of
the IOKit headers (`iokit_usb_err(0x4f)`, the 32-bit pattern `0xe000404f` read as
a signed `int`). -/
def kIOUSBPipeStalled : IOReturn := 0xe000404f - 2 ^ 32

/-- Modelled from the spec: host-to-device direction (`kUSBOut`). -/
def kUSBOut : Nat := 0

/-- Modelled from the spec: class-scoped request (`kUSBClass`). -/
def kUSBClass : Nat := 1

/-- Modelled from the spec: interface recipient (`kUSBInterface`). -/
def kUSBInterface : Nat := 1

/-- Modelled from the spec: the `USBmakebmRequestType` definition of the IOKit headers,
which packs direction (bit 7), request type (bits 6..5) and recipient (bits 4..0)
into the `bmRequestType` byte of a control request. -/
def USBmakebmRequestType (direction type recipient : Nat) : Nat :=
  ((direction &&& 1) <<< 7) ||| ((type &&& 3) <<< 5) ||| (recipient &&& 0x1f)

/-- Modelled from the spec: the "don't care" filter value
(`kIOUSBFindInterfaceDontCare`). -/
def kIOUSBFindInterfaceDontCare : Nat := 0xFFFF

/-- Modelled from the spec: the removal message type
(`kIOMessageServiceIsTerminated` of the IOKit headers). -/
def kIOMessageServiceIsTerminated : Nat := 0xe0000010

/-- Modelled from the spec: the can-system-sleep message type
(`kIOMessageCanSystemSleep`). -/
def kIOMessageCanSystemSleep : Nat := 0xe0000270

/-- Modelled from the spec: the system-will-sleep message type
(`kIOMessageSystemWillSleep`). -/
def kIOMessageSystemWillSleep : Nat := 0xe0000280

/-- Modelled from the spec: the system-has-powered-on message type
(`kIOMessageSystemHasPoweredOn`). -/
def kIOMessageSystemHasPoweredOn : Nat := 0xe0000300

/-- Modelled from the spec: the interrupt signal number (`SIGINT`). -/
def SIGINT : Nat := 2

/-- Modelled from the spec: the hangup signal number (`SIGHUP`). -/
def SIGHUP : Nat := 1

/-- Version string printed by `-V` (`#define CMVERSION`). -/
def CMVERSION : String := "2.1"

/-- Vendor identifier the scan matches (`#define kVendorID`). -/
def kVendorID : Int := 0x0d8c

/-- Product identifier the scan matches (`#define kProductID`). -/
def kProductID : Int := 0x0102

/-! ## Error handlers -/

/-- Source function `ShowError`: writes the place, then `ok` or the name of the error, then a
newline, all on `stderr`. -/
def ShowError (err : IOReturn) (place : Option String) : List Event :=
  (match place with
    | some w => [Event.fprintf_stderr "%s: " [Arg.str w]]
    | none => []) ++
  (if err = 0 then [Event.fprintf_stderr "ok" []]
   else [Event.fprintf_stderr "Error: %s " [Arg.errorName err]]) ++
  [Event.fprintf_stderr "\n" []]

/-- Source function `CheckError`: shows the error when there is one. -/
def CheckError (err : IOReturn) (place : Option String) : List Event :=
  if err ≠ 0 then ShowError err place else []

/-! ## Interface handlers -/

/-- Source function `writeCM6206Registers`: one control request on pipe 0 of `intf`.  `status` is
what `ControlRequest` returns.  The result is the returned `int` paired with the
trace.  `UInt8` parameters are truncated to eight bits. -/
def writeCM6206Registers (intf : Nat) (byte1 byte2 regNo : Nat) (status : IOReturn) :
    Int × List Event :=
  let pipeNo : Nat := 0
  let buf : List (Option Nat) :=
    [some 0x20, some (byte1 % 256), some (byte2 % 256), some (regNo % 256),
     none, none, none, none]
  let req : IOUSBDevRequest :=
    ⟨USBmakebmRequestType kUSBOut kUSBClass kUSBInterface, 0x09, 0x0200, 0x03, 4, buf⟩
  let err : IOReturn := status
  (if err ≠ 0 then 1 else 0,
   [Event.ControlRequest intf pipeNo req] ++
   CheckError err (some "usbWriteCmdWithBRequest") ++
   (if err = kIOUSBPipeStalled then [Event.ClearPipeStall intf pipeNo] else []))

/-- Source function `initCM6206`: sends the activation commands.  `s1 s2 s3` are the statuses of
the control requests, in the order they are issued.  The C function returns
nothing; the first component is the final value of its local `err`. -/
def initCM6206 (gVerbose : Int) (intf : Nat) (s1 s2 s3 : IOReturn) : Int × List Event :=
  let err0 : Int := 0
  let w1 := writeCM6206Registers intf 0x00 0x00 0x00 s1
  let t1 := if w1.1 ≠ 0 then [Event.fprintf_stderr "Error while resetting registers\n" []] else []
  let err1 : Int := if w1.1 ≠ 0 then 1 else err0
  let w2 := writeCM6206Registers intf 0x00 0x30 0x01 s2
  let t2 := if w2.1 ≠ 0 then [Event.fprintf_stderr "Error while attempting to enable SPDIF\n" []] else []
  let err2 : Int := if w2.1 ≠ 0 then 1 else err1
  let w3 := writeCM6206Registers intf 0x04 0x80 0x02 s3
  let t3 := if w3.1 ≠ 0 then [Event.fprintf_stderr "Error while attempting to enable analog out\n" []] else []
  let err3 : Int := if w3.1 ≠ 0 then 1 else err2
  (err3,
   w1.2 ++ t1 ++ w2.2 ++ t2 ++ w3.2 ++ t3 ++
   (if err3 = 0 ∧ gVerbose ≠ 0 then
      [Event.fprintf_stderr "Successfully sent CM6206 activation commands!\n" []]
    else []))

/-- What the platform answers to the calls `dealWithInterface` makes on one
interface reference.  `iodev` and `intf` are the pointers stored by
`IOCreatePlugInInterfaceForService` and `QueryInterface`; `xfer1 xfer2 xfer3` are
the statuses of the three control requests. -/
structure InterfaceEnv where
  createPlugIn : IOReturn
  iodev : Nat
  queryInterface : IOReturn
  intf : Nat
  usbInterfaceOpen : IOReturn
  usbInterfaceOpenSeize : IOReturn
  xfer1 : IOReturn
  xfer2 : IOReturn
  xfer3 : IOReturn
  usbInterfaceClose : IOReturn
  release : IOReturn
  deriving DecidableEq, Repr

/-- The part of `dealWithInterface` after the interface has been opened:
`initCM6206`, then close and release. -/
def dealWithInterface_opened (gVerbose : Int) (env : InterfaceEnv) : List Event :=
  (initCM6206 gVerbose env.intf env.xfer1 env.xfer2 env.xfer3).2 ++
  [Event.USBInterfaceClose env.intf] ++
  (if env.usbInterfaceClose ≠ 0 then
     [Event.fprintf_stderr "dealWithInterface: unable to close interface. ret = %08x\n"
        [Arg.int env.usbInterfaceClose]]
   else
     [Event.InterfaceRelease env.intf] ++
     (if env.release ≠ 0 then
        [Event.fprintf_stderr "dealWithInterface: unable to release interface. ret = %08x\n"
           [Arg.int env.release]]
      else []))

/-- Source function `dealWithInterface`: creates the interface object for `usbInterfaceRef`, opens
it (seizing it when the normal open fails), runs `initCM6206`, closes and releases
it. -/
def dealWithInterface (gVerbose : Int) (usbInterfaceRef : Nat) (env : InterfaceEnv) :
    List Event :=
  [Event.IOCreatePlugInInterfaceForService usbInterfaceRef
     PlugInType.kIOUSBInterfaceUserClientTypeID] ++
  (if env.createPlugIn ≠ 0 ∨ env.iodev = 0 then
     [Event.fprintf_stderr
        "dealWithInterface: unable to create plugin. ret = %08x, iodev = %p\n"
        [Arg.int env.createPlugIn, Arg.ptr env.iodev]]
   else
     [Event.QueryInterface env.iodev InterfaceID.kIOUSBInterfaceInterfaceID183,
      Event.PlugInRelease env.iodev] ++
     (if env.queryInterface ≠ 0 ∨ env.intf = 0 then
        [Event.fprintf_stderr
           "dealWithInterface: unable to create a device interface. ret = %08x, intf = %p\n"
           [Arg.int env.queryInterface, Arg.ptr env.intf]]
      else
        [Event.USBInterfaceOpen env.intf] ++
        (if env.usbInterfaceOpen ≠ 0 then
           [Event.fprintf_stderr "dealWithInterface: unable to open interface. ret = %08x\n"
              [Arg.int env.usbInterfaceOpen],
            Event.USBInterfaceOpenSeize env.intf] ++
           (if env.usbInterfaceOpenSeize ≠ 0 then
              [Event.fprintf_stderr
                 "dealWithInterface: unable to seize interface. ret = %08x\n"
                 [Arg.int env.usbInterfaceOpenSeize]]
            else dealWithInterface_opened gVerbose env)
         else dealWithInterface_opened gVerbose env)))

/-! ## Device handler -/

/-- What the platform answers to the calls `dealWithDevice` makes on one device
reference.  `usbDeviceOpen i` is the status of the `i`-th call of `USBDeviceOpen`
(counted from 0); `interfaces` are the references `IOIteratorNext` returns before
it returns 0, each with the answers for the calls made on it. -/
structure DeviceEnv where
  createPlugIn : IOReturn
  iodev : Nat
  queryInterface : IOReturn
  dev : Nat
  usbDeviceOpen : Nat → IOReturn
  getNumberOfConfigurations : IOReturn
  numConf : Nat
  getConfigurationDescriptorPtr : IOReturn
  bConfigurationValue : Nat
  setConfiguration : IOReturn
  createInterfaceIterator : IOReturn
  iterator : Nat
  interfaces : List (Nat × InterfaceEnv)
  usbDeviceClose : IOReturn
  release : IOReturn

/-- The body of one pass of the `do ... while( --nAttempts > 0 )` loop of
`dealWithDevice`, for the status `err` of this pass's `USBDeviceOpen`. -/
def openAttempt (dev : Nat) (err : IOReturn) (nAttempts : Int) : List Event :=
  [Event.USBDeviceOpen dev] ++
  (if err ≠ 0 then
     [Event.fprintf_stderr "Trying to open device, %d seconds left...\n" [Arg.int nAttempts]] ++
     (if nAttempts > 1 then [Event.sleep 1] else [])
   else [])

/-- The open-retry loop of `dealWithDevice`, entered at the `i`-th call of
`USBDeviceOpen` with the counter at `nAttempts`.  The result is the final `err`
paired with the trace. -/
def openLoop (dev : Nat) (results : Nat → IOReturn) (i : Nat) (nAttempts : Int) :
    IOReturn × List Event :=
  let err := results i
  let nAttempts1 : Int := if err ≠ 0 then nAttempts else 1
  if _h : nAttempts1 - 1 > 0 then
    let r := openLoop dev results (i + 1) (nAttempts1 - 1)
    (r.1, openAttempt dev err nAttempts ++ r.2)
  else
    (err, openAttempt dev err nAttempts)
termination_by nAttempts.toNat
decreasing_by
  have h2 : (if _h : results i ≠ 0 then nAttempts else 1) - 1 > 0 := _h
  split_ifs at h2 ⊢ <;> omega

/-- The `while( (usbInterfaceRef = IOIteratorNext(iterator)) )` loop of
`dealWithDevice`, with the counter at `nCount`. -/
def interfaceLoop (gVerbose : Int) (iterator : Nat) :
    List (Nat × InterfaceEnv) → Int → List Event
  | [], _ => [Event.IOIteratorNext iterator 0]
  | (usbInterfaceRef, env) :: rest, nCount =>
    [Event.IOIteratorNext iterator usbInterfaceRef] ++
    (if nCount = 1 then dealWithInterface gVerbose usbInterfaceRef env else []) ++
    [Event.IOObjectRelease usbInterfaceRef] ++
    interfaceLoop gVerbose iterator rest (nCount + 1)

/-- The two calls that every abort after a successful open makes. -/
def closeAndRelease (dev : Nat) : List Event :=
  [Event.USBDeviceClose dev, Event.DeviceRelease dev]

/-- The part of `dealWithDevice` after the interface iterator has been created:
the interface loop, then close and release of the device. -/
def dealWithDevice_enumerate (gVerbose : Int) (env : DeviceEnv) : List Event :=
  interfaceLoop gVerbose env.iterator env.interfaces 0 ++
  [Event.IOObjectRelease env.iterator, Event.USBDeviceClose env.dev] ++
  (if env.usbDeviceClose ≠ 0 then
     [Event.fprintf_stderr "dealWithDevice: error closing device - %08x\n"
        [Arg.int env.usbDeviceClose],
      Event.DeviceRelease env.dev]
   else
     [Event.DeviceRelease env.dev] ++
     (if env.release ≠ 0 then
        [Event.fprintf_stderr "dealWithDevice: error releasing device - %08x\n"
           [Arg.int env.release]]
      else []))

/-- The part of `dealWithDevice` after the device has been opened. -/
def dealWithDevice_opened (gVerbose : Int) (env : DeviceEnv) : List Event :=
  [Event.GetNumberOfConfigurations env.dev] ++
  (if env.getNumberOfConfigurations ≠ 0 ∨ env.numConf % 256 = 0 then
     [Event.fprintf_stderr
        "dealWithDevice: unable to obtain the number of configurations. ret = %08x\n"
        [Arg.int env.getNumberOfConfigurations]] ++
     closeAndRelease env.dev
   else
     [Event.GetConfigurationDescriptorPtr env.dev 0] ++
     (if env.getConfigurationDescriptorPtr ≠ 0 then
        [Event.fprintf_stderr "dealWithDevice:unable to get config descriptor for index 0\n" []] ++
        closeAndRelease env.dev
      else
        [Event.SetConfiguration env.dev (env.bConfigurationValue % 256)] ++
        (if env.setConfiguration ≠ 0 then
           [Event.fprintf_stderr "dealWithDevice: unable to set the configuration\n" []] ++
           closeAndRelease env.dev
         else
           [Event.CreateInterfaceIterator env.dev
              ⟨kIOUSBFindInterfaceDontCare, kIOUSBFindInterfaceDontCare,
               kIOUSBFindInterfaceDontCare, kIOUSBFindInterfaceDontCare⟩] ++
           (if env.createInterfaceIterator ≠ 0 then
              [Event.fprintf_stderr "dealWithDevice: unable to create interface iterator\n" []] ++
              closeAndRelease env.dev
            else dealWithDevice_enumerate gVerbose env))))

/-- Source function `dealWithDevice`: creates the device object for `usbDeviceRef`, opens it with
up to 20 attempts, sets its first configuration, walks its interfaces and hands
the second one to `dealWithInterface`, then closes and releases the device. -/
def dealWithDevice (gVerbose : Int) (usbDeviceRef : Nat) (env : DeviceEnv) : List Event :=
  let nAttempts : Int := 20
  [Event.IOCreatePlugInInterfaceForService usbDeviceRef
     PlugInType.kIOUSBDeviceUserClientTypeID] ++
  (if env.createPlugIn ≠ 0 ∨ env.iodev = 0 then
     [Event.fprintf_stderr "dealWithDevice: unable to create plugin. ret = %08x, iodev = %p\n"
        [Arg.int env.createPlugIn, Arg.ptr env.iodev]]
   else
     [Event.QueryInterface env.iodev InterfaceID.kIOUSBDeviceInterfaceID197,
      Event.PlugInRelease env.iodev] ++
     (if env.queryInterface ≠ 0 ∨ env.dev = 0 then
        [Event.fprintf_stderr
           "dealWithDevice: unable to create a device interface. ret = %08x, dev = %p\n"
           [Arg.int env.queryInterface, Arg.ptr env.dev]]
      else
        let r := openLoop env.dev env.usbDeviceOpen 0 nAttempts
        r.2 ++
        (if r.1 ≠ 0 then
           [Event.fprintf_stderr "dealWithDevice: unable to open device. ret = %08x\n"
              [Arg.int r.1]]
         else dealWithDevice_opened gVerbose env)))

/-! ## Bus scan -/

/-- What the platform answers to the calls of `makeDictionary`: the dictionary
returned by `IOServiceMatching` and the two numbers returned by `CFNumberCreate`
(0 is `NULL`). -/
structure DictionaryEnv where
  matchingDictionary : Nat
  vendorNumber : Nat
  productNumber : Nat
  deriving DecidableEq, Repr

/-- Source function `makeDictionary`: builds the matching dictionary for a vendor and product
identifier.  The result is the returned `int` paired with the trace. -/
def makeDictionary (env : DictionaryEnv) (idVendor idProduct : Int) : Int × List Event :=
  if env.matchingDictionary = 0 then
    (-1, [Event.IOServiceMatching,
          Event.fprintf_stderr "Error: Could not create matching dictionary\n" []])
  else if env.vendorNumber = 0 then
    (-1, [Event.IOServiceMatching, Event.CFNumberCreate idVendor,
          Event.fprintf_stderr "Error: Could not create CFNumberRef for vendor\n" []])
  else if env.productNumber = 0 then
    (-1, [Event.IOServiceMatching, Event.CFNumberCreate idVendor,
          Event.CFDictionaryAddValue env.matchingDictionary "idVendor" env.vendorNumber,
          Event.CFRelease env.vendorNumber, Event.CFNumberCreate idProduct,
          Event.fprintf_stderr "Error: Could not create CFNumberRef for product\n" []])
  else
    (0, [Event.IOServiceMatching, Event.CFNumberCreate idVendor,
         Event.CFDictionaryAddValue env.matchingDictionary "idVendor" env.vendorNumber,
         Event.CFRelease env.vendorNumber, Event.CFNumberCreate idProduct,
         Event.CFDictionaryAddValue env.matchingDictionary "idProduct" env.productNumber,
         Event.CFRelease env.productNumber])

/-- What the platform answers to the calls of `ActivateDevices`.  `devices` are
the references `IOIteratorNext` returns before it returns 0, each with the answers
for the calls `dealWithDevice` makes on it. -/
structure ScanEnv where
  ioMasterPort : IOReturn
  masterPort : Nat
  dictionary : DictionaryEnv
  getMatchingServices : IOReturn
  iterator : Nat
  devices : List (Nat × DeviceEnv)

/-- The `while ( (usbDeviceRef = IOIteratorNext(iterator)) )` loop of
`ActivateDevices`, entered with the flag at `foundDevice`.  The result is the
final `foundDevice` paired with the trace. -/
def deviceLoop (gVerbose : Int) (iterator : Nat) :
    List (Nat × DeviceEnv) → Int → Int × List Event
  | [], foundDevice => (foundDevice, [Event.IOIteratorNext iterator 0])
  | (usbDeviceRef, env) :: rest, _ =>
    let r := deviceLoop gVerbose iterator rest 1
    (r.1,
     [Event.IOIteratorNext iterator usbDeviceRef] ++
     (if gVerbose ≠ 0 then
        [Event.fprintf_stderr "CM6206 found (device %p)\n" [Arg.ptr usbDeviceRef]]
      else []) ++
     dealWithDevice gVerbose usbDeviceRef env ++
     [Event.IOObjectRelease usbDeviceRef] ++
     r.2)

/-- Source function `ActivateDevices`: looks for all matching devices and deals with each once.
The result is the returned `int` paired with the trace. -/
def ActivateDevices (gVerbose : Int) (env : ScanEnv) : Int × List Event :=
  if env.ioMasterPort ≠ 0 then
    (env.ioMasterPort,
     [Event.IOMasterPort,
      Event.fprintf_stderr "Error: Could not create master port, err = %08x\n"
        [Arg.int env.ioMasterPort]])
  else
    let d := makeDictionary env.dictionary kVendorID kProductID
    if d.1 ≠ 0 then
      (d.1, [Event.IOMasterPort] ++ d.2)
    else
      let l := deviceLoop gVerbose env.iterator env.devices 0
      (0,
       [Event.IOMasterPort] ++ d.2 ++
       [Event.IOServiceGetMatchingServices env.masterPort env.dictionary.matchingDictionary] ++
       l.2 ++
       (if l.1 = 0 ∧ gVerbose ≠ 0 then
          [Event.fprintf_stderr "No CM6206 device found on the USB bus.\n" []]
        else []) ++
       [Event.IOObjectRelease env.iterator, Event.mach_port_deallocate env.masterPort])

/-! ## Notification handlers -/

/-- The fields of `MyPrivateData`; `deviceInterface` and `deviceName` are
pointers, `notification` an object reference. -/
structure MyPrivateData where
  notification : Nat
  deviceInterface : Nat
  deviceName : Nat
  deriving DecidableEq, Repr

/-- Source function `DeviceNotification`: called with the record at address
`privateDataRef`, whose content is `record`.  The result is the record as it is
after the call (`none` once it has been freed) paired with the trace. -/
def DeviceNotification (gVerbose : Int) (privateDataRef : Nat) (record : MyPrivateData)
    (messageType : Nat) : Option MyPrivateData × List Event :=
  if messageType = kIOMessageServiceIsTerminated then
    (none,
     (if gVerbose ≠ 0 then
        [Event.fprintf_stderr "CM6206 device removed.\n" [],
         Event.fprintf_stderr "privateDataRef->deviceName: " [],
         Event.CFShow record.deviceName]
      else []) ++
     [Event.CFRelease record.deviceName] ++
     (if record.deviceInterface ≠ 0 then [Event.DeviceRelease record.deviceInterface]
      else []) ++
     [Event.IOObjectRelease record.notification, Event.free privateDataRef])
  else
    (some record, [])

/-- What the platform answers to the calls `DeviceAdded` makes for one device of
the batch.  `privateDataRef` is the block `malloc` returns (the source uses it
unchecked; the embedding covers the runs in which it is a block), `name` the name
`IORegistryEntryGetName` stores, `notification` the content of the record's
`notification` field after the registration, `session` the answers for
`dealWithDevice`. -/
structure AddedEnv where
  privateDataRef : Nat
  getName : IOReturn
  name : String
  deviceNameAsCFString : Nat
  addInterestNotification : IOReturn
  notification : Nat
  session : DeviceEnv

/-- Source function `DeviceAdded`: `batch` are the references `IOIteratorNext`
returns before it returns 0.  The result is the records created, each with its
address, paired with the trace. -/
def DeviceAdded (gVerbose : Int) (gNotifyPort : Nat) (iterator : Nat) :
    List (Nat × AddedEnv) → List (Nat × MyPrivateData) × List Event
  | [] => ([], [Event.IOIteratorNext iterator 0])
  | (usbDevice, env) :: rest =>
    let r := DeviceAdded gVerbose gNotifyPort iterator rest
    ((env.privateDataRef, ⟨env.notification, 0, env.deviceNameAsCFString⟩) :: r.1,
     [Event.IOIteratorNext iterator usbDevice,
      Event.fprintf_stderr "CM6206 device added.\n" [],
      Event.malloc env.privateDataRef,
      Event.bzero env.privateDataRef,
      Event.IORegistryEntryGetName usbDevice,
      Event.CFStringCreateWithCString (if env.getName ≠ 0 then "" else env.name)] ++
     (if gVerbose ≠ 0 then
        [Event.fprintf_stderr "deviceName: " [], Event.CFShow env.deviceNameAsCFString]
      else []) ++
     [Event.IOServiceAddInterestNotification gNotifyPort usbDevice env.privateDataRef] ++
     (if env.addInterestNotification ≠ 0 then
        [Event.fprintf_stderr "IOServiceAddInterestNotification returned 0x%08x.\n"
           [Arg.int env.addInterestNotification]]
      else []) ++
     [Event.sleep 1] ++
     dealWithDevice gVerbose usbDevice env.session ++
     [Event.IOObjectRelease usbDevice] ++
     r.2)

/-- Source function `powerCallback`: `rootPort` is the connection the first
argument points to, `msgArgument` the message argument read as an integer, `scan`
the answers for the calls of `ActivateDevices`. -/
def powerCallback (gVerbose : Int) (rootPort : Nat) (msgType : Nat) (msgArgument : Nat)
    (scan : ScanEnv) : List Event :=
  if msgType = kIOMessageSystemHasPoweredOn then
    (if gVerbose ≠ 0 then
       [Event.fprintf_stderr "Waking from sleep, re-activating any CM6206 devices...\n" []]
     else []) ++
    [Event.sleep 1] ++
    (ActivateDevices gVerbose scan).2
  else if msgType = kIOMessageCanSystemSleep ∨ msgType = kIOMessageSystemWillSleep then
    [Event.IOAllowPowerChange rootPort msgArgument]
  else []

/-! ## Program entry -/

/-- Source function `printUsage`. -/
def printUsage (progName : String) : List Event :=
  [Event.printf "Usage: %s [-s] [-d] [-v] [-V]\n" [Arg.str progName],
   Event.printf "  Activates sound outputs on CM6206 USB devices.\n" [],
   Event.printf "  -s: Silent mode (default in daemon mode)\n" [],
   Event.printf "  -v: Verbose mode (default in non-daemon mode)\n" [],
   Event.printf
     "  -d: Daemon mode: the program keeps running and automatically activates any\n" [],
   Event.printf
     "      devices that are connected, or all devices upon wake-from-sleep.\n" [],
   Event.printf "  -V: Print version number and exit.\n" []]

/-- How the flag loop of `main` ends: with a `return` from `main`, or past its
last argument with the two flags set. -/
inductive FlagsResult where
  | exit (code : Int)
  | proceed (bDaemon : Int) (gVerbose : Int)
  deriving DecidableEq, Repr

/-- The `for( int a=1; a<argc; a++ )` loop of `main` over the arguments that are
left, with `bDaemon` and `gVerbose` as they stand. -/
def flagLoop (progName : String) : List String → Int → Int → FlagsResult × List Event
  | [], bDaemon, gVerbose => (FlagsResult.proceed bDaemon gVerbose, [])
  | arg :: rest, bDaemon, gVerbose =>
    if arg = "-d" then flagLoop progName rest 1 0
    else if arg = "-v" then flagLoop progName rest bDaemon 1
    else if arg = "-s" then flagLoop progName rest bDaemon 0
    else if arg = "-V" then
      (FlagsResult.exit 0, [Event.printf "CM6206Init version %s\n" [Arg.str CMVERSION]])
    else if arg = "-h" then
      (FlagsResult.exit 0, printUsage progName)
    else
      let r := flagLoop progName rest bDaemon gVerbose
      (r.1, Event.fprintf_stderr "Ignoring unknown argument `%s'\n" [Arg.str arg] :: r.2)

/-- What the platform answers to the calls of `main` after the flag loop.
`signalFails` says that `signal(SIGINT, ...)` returned `SIG_ERR`; `scan` answers
the one-shot `ActivateDevices`; the other fields answer the daemon start-up, where
`rootPort` is what `IORegisterForSystemPower` returns, `added` the devices already
present, and `runLoopReturns` says whether `CFRunLoopRun` ever returns. -/
structure MainEnv where
  signalFails : Bool
  scan : ScanEnv
  dictionary : DictionaryEnv
  gNotifyPort : Nat
  runLoopSource : Nat
  gRunLoop : Nat
  addMatchingNotification : IOReturn
  gAddedIter : Nat
  rootPort : Nat
  notificationPort : Nat
  powerRunLoopSource : Nat
  added : List (Nat × AddedEnv)
  runLoopReturns : Bool

/-- How `main` ends: it returns an exit code, or it stays in `CFRunLoopRun`. -/
inductive MainResult where
  | returned (code : Int)
  | inRunLoop
  deriving DecidableEq, Repr

/-- The daemon branch of `main`. -/
def main_daemon (gVerbose : Int) (env : MainEnv) : MainResult × List Event :=
  let d := makeDictionary env.dictionary kVendorID kProductID
  if d.1 ≠ 0 then
    (MainResult.returned d.1, d.2)
  else
    let setup : List Event :=
      d.2 ++
      [Event.IONotificationPortCreate,
       Event.IONotificationPortGetRunLoopSource env.gNotifyPort,
       Event.CFRunLoopGetCurrent,
       Event.CFRunLoopAddSource env.gRunLoop env.runLoopSource,
       Event.IOServiceAddMatchingNotification env.gNotifyPort env.dictionary.matchingDictionary,
       Event.IORegisterForSystemPower]
    if env.rootPort = 0 then
      (MainResult.returned (-1),
       setup ++ [Event.fprintf_stderr "IORegisterForSystemPower failed\n" []])
    else
      let started : List Event :=
        setup ++
        [Event.IONotificationPortGetRunLoopSource env.notificationPort,
         Event.CFRunLoopAddSource env.gRunLoop env.powerRunLoopSource] ++
        (DeviceAdded gVerbose env.gNotifyPort env.gAddedIter env.added).2 ++
        (if gVerbose ≠ 0 then [Event.printf "Starting run loop.\n\n" []] else []) ++
        [Event.CFRunLoopRun]
      if env.runLoopReturns then
        (MainResult.returned (-1),
         started ++ [Event.fprintf_stderr "Unexpectedly back from CFRunLoopRun()!\n" []])
      else
        (MainResult.inRunLoop, started)

/-- Source function `main`, for `argv[0] = progName` and the further arguments
`args`. -/
def main (progName : String) (args : List String) (env : MainEnv) :
    MainResult × List Event :=
  let f := flagLoop progName args 0 1
  match f.1 with
  | FlagsResult.exit code => (MainResult.returned code, f.2)
  | FlagsResult.proceed bDaemon gVerbose =>
    let signals : List Event :=
      [Event.signal SIGINT] ++
      (if env.signalFails then
         [Event.fprintf_stderr "Could not establish new signal handler." []]
       else []) ++
      [Event.signal SIGHUP]
    if bDaemon ≠ 0 then
      let r := main_daemon gVerbose env
      (r.1, f.2 ++ signals ++ r.2)
    else
      let r := ActivateDevices gVerbose env.scan
      (MainResult.returned r.1, f.2 ++ signals ++ r.2)

/-! ## Observations on traces -/

/-- The control requests of a trace, in order: interface, pipe number, request. -/
def controlRequests (t : List Event) : List (Nat × Nat × IOUSBDevRequest) :=
  t.filterMap fun e =>
    match e with
    | Event.ControlRequest intf pipeNo req => some (intf, pipeNo, req)
    | _ => none

/-- A `ControlRequest` call. -/
def isControlRequest : Event → Bool
  | Event.ControlRequest _ _ _ => true
  | _ => false

/-- A `ClearPipeStall` call. -/
def isClearPipeStall : Event → Bool
  | Event.ClearPipeStall _ _ => true
  | _ => false

/-- Output on `stderr`. -/
def isDiagnostic : Event → Bool
  | Event.fprintf_stderr _ _ => true
  | _ => false

/-- A `USBInterfaceOpen` call. -/
def isUSBInterfaceOpen : Event → Bool
  | Event.USBInterfaceOpen _ => true
  | _ => false

/-- A `USBInterfaceOpenSeize` call. -/
def isUSBInterfaceOpenSeize : Event → Bool
  | Event.USBInterfaceOpenSeize _ => true
  | _ => false

/-- A `USBInterfaceClose` call. -/
def isUSBInterfaceClose : Event → Bool
  | Event.USBInterfaceClose _ => true
  | _ => false

/-- A `USBDeviceOpen` call. -/
def isUSBDeviceOpen : Event → Bool
  | Event.USBDeviceOpen _ => true
  | _ => false

/-- A `USBDeviceClose` call. -/
def isUSBDeviceClose : Event → Bool
  | Event.USBDeviceClose _ => true
  | _ => false

/-- A `Release` call on a device object. -/
def isDeviceRelease : Event → Bool
  | Event.DeviceRelease _ => true
  | _ => false

/-- A `sleep` call. -/
def isSleep : Event → Bool
  | Event.sleep _ => true
  | _ => false

/-- The calls `initCM6206` can make: control requests, stall clears, diagnostics. -/
def isTransferEvent (e : Event) : Bool :=
  isControlRequest e || isClearPipeStall e || isDiagnostic e

/-- The request that `writeCM6206Registers` builds for eight-bit arguments, written
out field by field. -/
def registerWriteRequest (byte1 byte2 regNo : Nat) : IOUSBDevRequest :=
  ⟨0x21, 0x09, 0x0200, 0x03, 4,
   [some 0x20, some byte1, some byte2, some regNo, none, none, none, none]⟩

/-- The message `initCM6206` prints when every command went through. -/
def successMessage : Event :=
  Event.fprintf_stderr "Successfully sent CM6206 activation commands!\n" []

/-- The calls `dealWithInterface` can issue. -/
def isInterfaceCall : Event → Bool
  | Event.fprintf_stderr _ _ => true
  | Event.ControlRequest _ _ _ => true
  | Event.ClearPipeStall _ _ => true
  | Event.IOCreatePlugInInterfaceForService _ PlugInType.kIOUSBInterfaceUserClientTypeID => true
  | Event.QueryInterface _ _ => true
  | Event.PlugInRelease _ => true
  | Event.USBInterfaceOpen _ => true
  | Event.USBInterfaceOpenSeize _ => true
  | Event.USBInterfaceClose _ => true
  | Event.InterfaceRelease _ => true
  | _ => false

/-- The calls `dealWithDevice` can issue once the open-retry loop is over. -/
def isOpenedDeviceCall : Event → Bool
  | Event.GetNumberOfConfigurations _ => true
  | Event.GetConfigurationDescriptorPtr _ _ => true
  | Event.SetConfiguration _ _ => true
  | Event.CreateInterfaceIterator _ _ => true
  | Event.IOIteratorNext _ _ => true
  | Event.IOObjectRelease _ => true
  | Event.USBDeviceClose _ => true
  | Event.DeviceRelease _ => true
  | e => isInterfaceCall e

/-- The calls the open-retry loop of `dealWithDevice` can issue. -/
def isOpenLoopCall : Event → Bool
  | Event.USBDeviceOpen _ => true
  | Event.fprintf_stderr _ _ => true
  | Event.sleep _ => true
  | _ => false

/-- The interface references on which `dealWithInterface` was started, in order:
each run of `dealWithInterface` begins with the one call of
`IOCreatePlugInInterfaceForService` that asks for the interface user client. -/
def claimerCalls (t : List Event) : List Nat :=
  t.filterMap fun e =>
    match e with
    | Event.IOCreatePlugInInterfaceForService r PlugInType.kIOUSBInterfaceUserClientTypeID =>
      some r
    | _ => none

/-- The device references on which `dealWithDevice` was started, in order: each
run of `dealWithDevice` begins with the one call of
`IOCreatePlugInInterfaceForService` that asks for the device user client. -/
def sessionStarts (t : List Event) : List Nat :=
  t.filterMap fun e =>
    match e with
    | Event.IOCreatePlugInInterfaceForService r PlugInType.kIOUSBDeviceUserClientTypeID =>
      some r
    | _ => none

/-- The references handed to `IOObjectRelease`, in order. -/
def objectReleases (t : List Event) : List Nat :=
  t.filterMap fun e =>
    match e with
    | Event.IOObjectRelease r => some r
    | _ => none

/-- The calls of `j` failed passes of the open-retry loop that are each followed
by the one-second wait, the counter standing at `nAttempts` in the first. -/
def failedAttempts (dev : Nat) (nAttempts : Int) : Nat → List Event
  | 0 => []
  | j + 1 =>
    [Event.USBDeviceOpen dev,
     Event.fprintf_stderr "Trying to open device, %d seconds left...\n" [Arg.int nAttempts],
     Event.sleep 1] ++
    failedAttempts dev (nAttempts - 1) j

/-- An `IOMasterPort` call, the first call of every run of `ActivateDevices`. -/
def isIOMasterPort : Event → Bool
  | Event.IOMasterPort => true
  | _ => false

/-- An `IOAllowPowerChange` call. -/
def isIOAllowPowerChange : Event → Bool
  | Event.IOAllowPowerChange _ _ => true
  | _ => false

/-- A `free` call. -/
def isFree : Event → Bool
  | Event.free _ => true
  | _ => false

/-- A `malloc` call. -/
def isMalloc : Event → Bool
  | Event.malloc _ => true
  | _ => false

/-- A `CFRelease` call. -/
def isCFRelease : Event → Bool
  | Event.CFRelease _ => true
  | _ => false

/-- An `IOObjectRelease` call. -/
def isIOObjectRelease : Event → Bool
  | Event.IOObjectRelease _ => true
  | _ => false

/-- The calls `dealWithDevice` can issue. -/
def isSessionCall (e : Event) : Bool :=
  isOpenLoopCall e || isOpenedDeviceCall e ||
  match e with
  | Event.IOCreatePlugInInterfaceForService _ _ => true
  | _ => false

/-- The calls `ActivateDevices` can issue. -/
def isScanCall (e : Event) : Bool :=
  isSessionCall e ||
  match e with
  | Event.IOMasterPort => true
  | Event.IOServiceMatching => true
  | Event.CFNumberCreate _ => true
  | Event.CFDictionaryAddValue _ _ _ => true
  | Event.CFRelease _ => true
  | Event.IOServiceGetMatchingServices _ _ => true
  | Event.mach_port_deallocate _ => true
  | _ => false

/-- The calls with which `DeviceAdded` creates the record of one device: fetch of
the reference, the "device added" message, allocation and clearing of the record,
the name query, creation of the name string and, when verbose, its dump. -/
def recordSetup (gVerbose : Int) (iterator : Nat) (x : Nat × AddedEnv) : List Event :=
  [Event.IOIteratorNext iterator x.1,
   Event.fprintf_stderr "CM6206 device added.\n" [],
   Event.malloc x.2.privateDataRef,
   Event.bzero x.2.privateDataRef,
   Event.IORegistryEntryGetName x.1,
   Event.CFStringCreateWithCString (if x.2.getName ≠ 0 then "" else x.2.name)] ++
  (if gVerbose ≠ 0 then
     [Event.fprintf_stderr "deviceName: " [], Event.CFShow x.2.deviceNameAsCFString]
   else [])

/-- What `DeviceAdded` does with one device of the batch: create the record,
register for the removal notification with the record as context (with a
diagnostic when the registration fails), wait one second, run `dealWithDevice`,
release the reference. -/
def addedPass (gVerbose : Int) (gNotifyPort : Nat) (iterator : Nat) (x : Nat × AddedEnv) :
    List Event :=
  recordSetup gVerbose iterator x ++
  [Event.IOServiceAddInterestNotification gNotifyPort x.1 x.2.privateDataRef] ++
  (if x.2.addInterestNotification ≠ 0 then
     [Event.fprintf_stderr "IOServiceAddInterestNotification returned 0x%08x.\n"
        [Arg.int x.2.addInterestNotification]]
   else []) ++
  [Event.sleep 1] ++
  dealWithDevice gVerbose x.1 x.2.session ++
  [Event.IOObjectRelease x.1]

/-- The calls `DeviceAdded` can issue. -/
def isAddedCall (e : Event) : Bool :=
  isSessionCall e ||
  match e with
  | Event.malloc _ => true
  | Event.bzero _ => true
  | Event.IORegistryEntryGetName _ => true
  | Event.CFStringCreateWithCString _ => true
  | Event.CFShow _ => true
  | Event.IOServiceAddInterestNotification _ _ _ => true
  | _ => false

/-- The calls `main` can issue itself or through `ActivateDevices` and
`DeviceAdded`. -/
def isMainCall (e : Event) : Bool :=
  isScanCall e || isAddedCall e ||
  match e with
  | Event.printf _ _ => true
  | Event.signal _ => true
  | Event.IONotificationPortCreate => true
  | Event.IONotificationPortGetRunLoopSource _ => true
  | Event.CFRunLoopGetCurrent => true
  | Event.CFRunLoopAddSource _ _ => true
  | Event.IOServiceAddMatchingNotification _ _ => true
  | Event.IORegisterForSystemPower => true
  | Event.CFRunLoopRun => true
  | _ => false

/-- Every call that `dealWithInterface` makes on the interface succeeds. -/
def interfaceSucceeds (e : InterfaceEnv) : Prop :=
  (e.createPlugIn = 0 ∧ e.iodev ≠ 0) ∧ (e.queryInterface = 0 ∧ e.intf ≠ 0) ∧
  e.usbInterfaceOpen = 0 ∧ e.xfer1 = 0 ∧ e.xfer2 = 0 ∧ e.xfer3 = 0 ∧
  e.usbInterfaceClose = 0 ∧ e.release = 0

/-- Every call that `dealWithDevice` makes on the device succeeds, the open at
the first attempt. -/
def deviceSucceeds (e : DeviceEnv) : Prop :=
  (e.createPlugIn = 0 ∧ e.iodev ≠ 0) ∧ (e.queryInterface = 0 ∧ e.dev ≠ 0) ∧
  e.usbDeviceOpen 0 = 0 ∧
  (e.getNumberOfConfigurations = 0 ∧ e.numConf % 256 ≠ 0) ∧
  e.getConfigurationDescriptorPtr = 0 ∧ e.setConfiguration = 0 ∧
  e.createInterfaceIterator = 0 ∧ e.usbDeviceClose = 0 ∧ e.release = 0

/-- Every call that `ActivateDevices` makes to prepare the enumeration succeeds. -/
def scanSucceeds (e : ScanEnv) : Prop :=
  e.ioMasterPort = 0 ∧
  (e.dictionary.matchingDictionary ≠ 0 ∧ e.dictionary.vendorNumber ≠ 0 ∧
   e.dictionary.productNumber ≠ 0) ∧
  e.getMatchingServices = 0

/-- The calls made on a device object or on an interface object. -/
def isDeviceFacing : Event → Bool
  | Event.USBDeviceOpen _ => true
  | Event.GetNumberOfConfigurations _ => true
  | Event.GetConfigurationDescriptorPtr _ _ => true
  | Event.SetConfiguration _ _ => true
  | Event.CreateInterfaceIterator _ _ => true
  | Event.USBDeviceClose _ => true
  | Event.DeviceRelease _ => true
  | Event.USBInterfaceOpen _ => true
  | Event.USBInterfaceOpenSeize _ => true
  | Event.ControlRequest _ _ _ => true
  | Event.ClearPipeStall _ _ => true
  | Event.USBInterfaceClose _ => true
  | Event.InterfaceRelease _ => true
  | _ => false

/-- A call on a device or interface object, or the release of an object
reference. -/
def isSessionAction (e : Event) : Bool :=
  isDeviceFacing e || isIOObjectRelease e

/-! ## Reference definition of the flag scan -/

/-- How the reference flag scan ends: the program exits with code 0, or it goes on
with the two flags. -/
inductive ReferenceResult where
  | exit0
  | run (daemon : Bool) (verbose : Bool)
  deriving DecidableEq, Repr

/-- Reference definition of the flag scan, following the specification: scan the
arguments left to right from the flags as they stand; `-d` sets daemon and clears
verbose; `-v` sets verbose; `-s` clears verbose; the first `-V` or `-h` reached
ends the program with exit code 0; every other argument is reported and changes
nothing.  The result is the way the scan ends paired with the reported
arguments. -/
def flagReference : List String → Bool → Bool → ReferenceResult × List String
  | [], daemon, verbose => (ReferenceResult.run daemon verbose, [])
  | arg :: rest, daemon, verbose =>
    if arg = "-V" ∨ arg = "-h" then (ReferenceResult.exit0, [])
    else if arg = "-d" then flagReference rest true false
    else if arg = "-v" then flagReference rest daemon true
    else if arg = "-s" then flagReference rest daemon false
    else
      let r := flagReference rest daemon verbose
      (r.1, arg :: r.2)

/-- The `int` that the source keeps for a flag. -/
def flagInt (b : Bool) : Int := if b then 1 else 0

/-- The result of the flag loop of `main` that stands for a reference result. -/
def ReferenceResult.toFlagsResult : ReferenceResult → FlagsResult
  | ReferenceResult.exit0 => FlagsResult.exit 0
  | ReferenceResult.run daemon verbose => FlagsResult.proceed (flagInt daemon) (flagInt verbose)

/-- The report that `main` writes for an argument it does not know. -/
def unknownArgumentReport (arg : String) : Event :=
  Event.fprintf_stderr "Ignoring unknown argument `%s'\n" [Arg.str arg]

/-- The arguments that set the verbosity. -/
def isVerbosityFlag (arg : String) : Bool :=
  arg = "-d" ∨ arg = "-s" ∨ arg = "-v"

/-- The arguments that `main` knows. -/
def isRecognised (arg : String) : Bool :=
  arg = "-d" ∨ arg = "-v" ∨ arg = "-s" ∨ arg = "-V" ∨ arg = "-h"

/-- The last argument that sets the verbosity, when there is one. -/
def lastVerbosityFlag (args : List String) : Option String :=
  args.reverse.find? isVerbosityFlag

/-- Output written with `printf` or `fprintf`. -/
def isOutput : Event → Bool
  | Event.printf _ _ => true
  | Event.fprintf_stderr _ _ => true
  | _ => false

/-! ## Verbosity -/

/-- The format strings of the messages that the source writes only when
`gVerbose` is set. -/
def informationalFormats : List String :=
  ["Successfully sent CM6206 activation commands!\n",
   "CM6206 found (device %p)\n",
   "No CM6206 device found on the USB bus.\n",
   "Waking from sleep, re-activating any CM6206 devices...\n",
   "CM6206 device removed.\n",
   "privateDataRef->deviceName: ",
   "deviceName: "]

/-- The informational output: a message with one of the `informationalFormats`, or
a dump of a name with `CFShow`. -/
def isInformational : Event → Bool
  | Event.fprintf_stderr fmt _ => informationalFormats.contains fmt
  | Event.CFShow _ => true
  | _ => false

/-- A trace without its informational output. -/
def quiet (t : List Event) : List Event :=
  t.filter fun e => !isInformational e

/-! ## Sample platform answers -/

/-- An interface whose normal open fails with `0x2c5` and whose seize succeeds;
the second control transfer stalls and the third fails with another code. -/
def seizedInterface : InterfaceEnv :=
  ⟨0, 11, 0, 12, 0x2c5, 0, 0, kIOUSBPipeStalled, 7, 0, 0⟩

/-- An interface on which every call succeeds. -/
def goodInterface : InterfaceEnv :=
  ⟨0, 11, 0, 12, 0, 0, 0, 0, 0, 0, 0⟩

/-- A device whose first two opens fail and whose third succeeds, with three
interfaces. -/
def slowDevice : DeviceEnv :=
  ⟨0, 21, 0, 22, fun i => if i < 2 then 0x2c5 else 0, 0, 1, 0, 1, 0, 0, 30,
   [(41, goodInterface), (42, seizedInterface), (43, goodInterface)], 0, 0⟩

/-- A device object that is created but never opens. -/
def deadDevice : DeviceEnv :=
  ⟨0, 21, 0, 22, fun _ => 0x2c5, 0, 1, 0, 1, 0, 0, 30,
   [(41, goodInterface), (42, goodInterface), (43, goodInterface)], 0, 0⟩

/-- A device that opens at once and then reports no configuration. -/
def unconfiguredDevice : DeviceEnv :=
  ⟨0, 21, 0, 22, fun _ => 0, 0, 0, 0, 1, 0, 0, 30, [], 0, 0⟩

/-- A device that opens at once, with three interfaces, on which every call
succeeds. -/
def goodDevice : DeviceEnv :=
  ⟨0, 21, 0, 22, fun _ => 0, 0, 1, 0, 1, 0, 0, 30,
   [(41, goodInterface), (42, goodInterface), (43, goodInterface)], 0, 0⟩

/-- A bus without a matching device. -/
def emptyScan : ScanEnv :=
  ⟨0, 5, ⟨1, 2, 3⟩, 0, 9, []⟩

/-- A bus with one matching device on which every call succeeds. -/
def oneDeviceScan : ScanEnv :=
  ⟨0, 5, ⟨1, 2, 3⟩, 0, 9, [(7, goodDevice)]⟩

/-- A record whose device handle is held. -/
def heldRecord : MyPrivateData := ⟨51, 52, 53⟩

/-- A device-added answer set for a device on which every call succeeds. -/
def goodAdded : AddedEnv := ⟨61, 0, "USB Sound Device", 62, 0, 63, goodDevice⟩

/-- A device-added answer set for a device that never opens and whose removal
registration fails. -/
def deadAdded : AddedEnv := ⟨71, 0, "USB Sound Device", 72, 5, 0, deadDevice⟩

/-- Start-up answers with every call succeeding and one device already present. -/
def goodMain : MainEnv :=
  ⟨false, oneDeviceScan, ⟨1, 2, 3⟩, 81, 82, 83, 0, 84, 85, 86, 87, [(7, goodAdded)], false⟩

/-- The device-facing actions of the scan of `oneDeviceScan` in the order in
which the end-to-end scenario lists them: all three interface references released
after the interface has been closed. -/
def listedSequence : List Event :=
  [Event.USBDeviceOpen 22,
   Event.GetNumberOfConfigurations 22,
   Event.GetConfigurationDescriptorPtr 22 0,
   Event.SetConfiguration 22 1,
   Event.CreateInterfaceIterator 22
     ⟨kIOUSBFindInterfaceDontCare, kIOUSBFindInterfaceDontCare,
      kIOUSBFindInterfaceDontCare, kIOUSBFindInterfaceDontCare⟩,
   Event.USBInterfaceOpen 12,
   Event.ControlRequest 12 0 (registerWriteRequest 0x00 0x00 0x00),
   Event.ControlRequest 12 0 (registerWriteRequest 0x00 0x30 0x01),
   Event.ControlRequest 12 0 (registerWriteRequest 0x04 0x80 0x02),
   Event.USBInterfaceClose 12,
   Event.IOObjectRelease 41,
   Event.IOObjectRelease 42,
   Event.IOObjectRelease 43,
   Event.USBDeviceClose 22,
   Event.DeviceRelease 22]

/-- Start-up answers with which the registration for power notifications fails
(`IORegisterForSystemPower` returns 0). -/
def noPowerMain : MainEnv :=
  ⟨false, oneDeviceScan, ⟨1, 2, 3⟩, 81, 82, 83, 0, 84, 0, 86, 87, [(7, goodAdded)], false⟩

/-- Start-up answers with which the master port cannot be obtained. -/
def noPortMain : MainEnv :=
  ⟨false, ⟨0x10000003, 0, ⟨1, 2, 3⟩, 0, 0, []⟩, ⟨1, 2, 3⟩, 81, 82, 83, 0, 84, 85, 86, 87, [],
   false⟩

/-! ## Control-transfer client and activation sequence -/

theorem USBmakebmRequestType_value :
    USBmakebmRequestType kUSBOut kUSBClass kUSBInterface = 0x21 := by
  decide

theorem kIOUSBPipeStalled_ne_zero : kIOUSBPipeStalled ≠ 0 := by
  decide

theorem writeCM6206Registers_ret (intf byte1 byte2 regNo : Nat) (status : IOReturn) :
    (writeCM6206Registers intf byte1 byte2 regNo status).1 = if status ≠ 0 then 1 else 0 := by
  simp [writeCM6206Registers]

theorem writeCM6206Registers_ret_eq_zero (intf byte1 byte2 regNo : Nat) (status : IOReturn) :
    (writeCM6206Registers intf byte1 byte2 regNo status).1 = 0 ↔ status = 0 := by
  rw [writeCM6206Registers_ret]
  by_cases h : status = 0 <;> simp [h]

theorem controlRequests_append (a b : List Event) :
    controlRequests (a ++ b) = controlRequests a ++ controlRequests b := by
  simp [controlRequests]

theorem controlRequests_ShowError (err : IOReturn) (place : Option String) :
    controlRequests (ShowError err place) = [] := by
  cases place <;> by_cases h : err = 0 <;> simp [ShowError, controlRequests, h]

theorem controlRequests_CheckError (err : IOReturn) (place : Option String) :
    controlRequests (CheckError err place) = [] := by
  unfold CheckError
  split
  · exact controlRequests_ShowError err place
  · rfl

theorem controlRequests_writeCM6206Registers (intf byte1 byte2 regNo : Nat)
    (status : IOReturn) :
    controlRequests (writeCM6206Registers intf byte1 byte2 regNo status).2 =
      [(intf, 0, registerWriteRequest (byte1 % 256) (byte2 % 256) (regNo % 256))] := by
  unfold writeCM6206Registers
  simp only [controlRequests_append, controlRequests_CheckError]
  by_cases h : status = kIOUSBPipeStalled <;>
    simp [controlRequests, h, registerWriteRequest, USBmakebmRequestType_value]

theorem isDiagnostic_ShowError (err : IOReturn) (place : Option String) :
    ∀ e ∈ ShowError err place, isDiagnostic e = true := by
  cases place <;> by_cases h : err = 0 <;> simp [ShowError, isDiagnostic, h]

theorem isDiagnostic_CheckError (err : IOReturn) (place : Option String) :
    ∀ e ∈ CheckError err place, isDiagnostic e = true := by
  unfold CheckError
  split
  · exact isDiagnostic_ShowError err place
  · simp

theorem successMessage_not_mem_writeCM6206Registers (intf byte1 byte2 regNo : Nat)
    (status : IOReturn) :
    successMessage ∉ (writeCM6206Registers intf byte1 byte2 regNo status).2 := by
  simp only [writeCM6206Registers, CheckError, ShowError, successMessage]
  split_ifs <;> simp

theorem controlRequests_initCM6206 (gVerbose : Int) (intf : Nat) (s1 s2 s3 : IOReturn) :
    controlRequests (initCM6206 gVerbose intf s1 s2 s3).2 =
      [(intf, 0, registerWriteRequest 0x00 0x00 0x00),
       (intf, 0, registerWriteRequest 0x00 0x30 0x01),
       (intf, 0, registerWriteRequest 0x04 0x80 0x02)] := by
  unfold initCM6206
  simp only [controlRequests_append, controlRequests_writeCM6206Registers]
  split_ifs <;> simp [controlRequests, registerWriteRequest]

/-- C1: whatever the three control transfers return, the trace of `initCM6206` is
the trace of `writeCM6206Registers (0x00,0x00,0x00)`, then of
`writeCM6206Registers (0x00,0x30,0x01)`, then of `writeCM6206Registers
(0x04,0x80,0x02)`, with nothing but diagnostics after each; and the control
requests it issues are exactly the three register writes with these payloads, in
this order. -/
theorem initCM6206_issues_three_writes (gVerbose : Int) (intf : Nat) (s1 s2 s3 : IOReturn) :
    (∃ d1 d2 d3 : List Event,
      (∀ e ∈ d1 ++ d2 ++ d3, isDiagnostic e = true) ∧
      (initCM6206 gVerbose intf s1 s2 s3).2 =
        (writeCM6206Registers intf 0x00 0x00 0x00 s1).2 ++ d1 ++
        (writeCM6206Registers intf 0x00 0x30 0x01 s2).2 ++ d2 ++
        (writeCM6206Registers intf 0x04 0x80 0x02 s3).2 ++ d3) ∧
    controlRequests (initCM6206 gVerbose intf s1 s2 s3).2 =
      [(intf, 0, registerWriteRequest 0x00 0x00 0x00),
       (intf, 0, registerWriteRequest 0x00 0x30 0x01),
       (intf, 0, registerWriteRequest 0x04 0x80 0x02)] := by
  constructor
  · refine ⟨if (writeCM6206Registers intf 0x00 0x00 0x00 s1).1 ≠ 0 then
        [Event.fprintf_stderr "Error while resetting registers\n" []] else [],
      if (writeCM6206Registers intf 0x00 0x30 0x01 s2).1 ≠ 0 then
        [Event.fprintf_stderr "Error while attempting to enable SPDIF\n" []] else [],
      (if (writeCM6206Registers intf 0x04 0x80 0x02 s3).1 ≠ 0 then
        [Event.fprintf_stderr "Error while attempting to enable analog out\n" []] else []) ++
      (if (initCM6206 gVerbose intf s1 s2 s3).1 = 0 ∧ gVerbose ≠ 0 then
        [Event.fprintf_stderr "Successfully sent CM6206 activation commands!\n" []]
       else []), ?_, ?_⟩
    · intro e he
      simp only [List.mem_append] at he
      rcases he with (he | he) | he | he <;> split at he <;> simp_all [isDiagnostic]
    · simp [initCM6206, List.append_assoc]
  · exact controlRequests_initCM6206 gVerbose intf s1 s2 s3

/-- C2: the failure flag `err` of `initCM6206` ends at 0 exactly when all three
writes report success (that is, when all three transfers return status 0) and at 1
exactly when one of them fails; the success message is printed exactly when the
flag is 0 and `gVerbose` is set. -/
theorem initCM6206_outcome (gVerbose : Int) (intf : Nat) (s1 s2 s3 : IOReturn) :
    ((initCM6206 gVerbose intf s1 s2 s3).1 = 0 ↔
      ((writeCM6206Registers intf 0x00 0x00 0x00 s1).1 = 0 ∧
       (writeCM6206Registers intf 0x00 0x30 0x01 s2).1 = 0 ∧
       (writeCM6206Registers intf 0x04 0x80 0x02 s3).1 = 0)) ∧
    ((initCM6206 gVerbose intf s1 s2 s3).1 = 1 ↔
      ((writeCM6206Registers intf 0x00 0x00 0x00 s1).1 ≠ 0 ∨
       (writeCM6206Registers intf 0x00 0x30 0x01 s2).1 ≠ 0 ∨
       (writeCM6206Registers intf 0x04 0x80 0x02 s3).1 ≠ 0)) ∧
    ((initCM6206 gVerbose intf s1 s2 s3).1 = 0 ↔ (s1 = 0 ∧ s2 = 0 ∧ s3 = 0)) ∧
    (successMessage ∈ (initCM6206 gVerbose intf s1 s2 s3).2 ↔
      (gVerbose ≠ 0 ∧ (initCM6206 gVerbose intf s1 s2 s3).1 = 0)) := by
  have hflag : (initCM6206 gVerbose intf s1 s2 s3).1 =
      if s1 = 0 ∧ s2 = 0 ∧ s3 = 0 then 0 else 1 := by
    simp only [initCM6206, writeCM6206Registers_ret]
    by_cases h1 : s1 = 0 <;> by_cases h2 : s2 = 0 <;> by_cases h3 : s3 = 0 <;> simp [h1, h2, h3]
  refine ⟨?_, ?_, ?_, ?_⟩
  · rw [hflag]
    simp only [writeCM6206Registers_ret_eq_zero]
    by_cases h : s1 = 0 ∧ s2 = 0 ∧ s3 = 0 <;> simp [h]
  · rw [hflag]
    simp only [ne_eq, writeCM6206Registers_ret_eq_zero]
    by_cases h1 : s1 = 0 <;> by_cases h2 : s2 = 0 <;> by_cases h3 : s3 = 0 <;> simp [h1, h2, h3]
  · rw [hflag]
    by_cases h : s1 = 0 ∧ s2 = 0 ∧ s3 = 0 <;> simp [h]
  · rw [hflag]
    unfold initCM6206
    simp only [List.mem_append, successMessage_not_mem_writeCM6206Registers,
      writeCM6206Registers_ret]
    by_cases h1 : s1 = 0 <;> by_cases h2 : s2 = 0 <;> by_cases h3 : s3 = 0 <;>
      by_cases hv : gVerbose = 0 <;> simp [h1, h2, h3, hv, successMessage]

/-- C3: for eight-bit `byte1`, `byte2`, `regNo`, the one control request of
`writeCM6206Registers` is the first call it makes, goes to pipe 0, and has
`bmRequestType = 0x21`, `bRequest = 0x09`, `wValue = 0x0200`, `wIndex = 0x03`,
`wLength = 4` and data bytes starting `[0x20, byte1, byte2, regNo]`. -/
theorem writeCM6206Registers_request (intf byte1 byte2 regNo : Nat) (status : IOReturn)
    (h1 : byte1 < 256) (h2 : byte2 < 256) (h3 : regNo < 256) :
    ∃ (req : IOUSBDevRequest) (rest : List Event),
      (writeCM6206Registers intf byte1 byte2 regNo status).2 =
        Event.ControlRequest intf 0 req :: rest ∧
      controlRequests (writeCM6206Registers intf byte1 byte2 regNo status).2 =
        [(intf, 0, req)] ∧
      req.bmRequestType = 0x21 ∧ req.bRequest = 0x09 ∧ req.wValue = 0x0200 ∧
      req.wIndex = 0x03 ∧ req.wLength = 4 ∧
      req.pData.take 4 = [some 0x20, some byte1, some byte2, some regNo] := by
  refine ⟨registerWriteRequest byte1 byte2 regNo,
    CheckError status (some "usbWriteCmdWithBRequest") ++
      (if status = kIOUSBPipeStalled then [Event.ClearPipeStall intf 0] else []),
    ?_, ?_, rfl, rfl, rfl, rfl, rfl, rfl⟩
  · simp only [writeCM6206Registers, USBmakebmRequestType_value, registerWriteRequest,
      Nat.mod_eq_of_lt h1, Nat.mod_eq_of_lt h2, Nat.mod_eq_of_lt h3, List.singleton_append,
      List.cons_append, List.nil_append]
  · rw [controlRequests_writeCM6206Registers, Nat.mod_eq_of_lt h1, Nat.mod_eq_of_lt h2,
      Nat.mod_eq_of_lt h3]

theorem writeCM6206Registers_request_witness :
    ∃ (req : IOUSBDevRequest) (rest : List Event),
      (writeCM6206Registers 12 0x04 0x80 0x02 0).2 = Event.ControlRequest 12 0 req :: rest ∧
      controlRequests (writeCM6206Registers 12 0x04 0x80 0x02 0).2 = [(12, 0, req)] ∧
      req.bmRequestType = 0x21 ∧ req.bRequest = 0x09 ∧ req.wValue = 0x0200 ∧
      req.wIndex = 0x03 ∧ req.wLength = 4 ∧
      req.pData.take 4 = [some 0x20, some 0x04, some 0x80, some 0x02] :=
  writeCM6206Registers_request 12 0x04 0x80 0x02 0 (by decide) (by decide) (by decide)

/-- C4: for every status of the control transfer, one call of
`writeCM6206Registers` issues one `ControlRequest`, as its first call; it issues
`ClearPipeStall` once, as its last call, when the status is `kIOUSBPipeStalled`,
and not at all for any other status; it returns non-zero exactly when the status
is non-zero, so also for a stalled transfer. -/
theorem writeCM6206Registers_stall (intf byte1 byte2 regNo : Nat) (status : IOReturn) :
    ((writeCM6206Registers intf byte1 byte2 regNo status).2.countP isControlRequest = 1) ∧
    ((writeCM6206Registers intf byte1 byte2 regNo status).2.countP isClearPipeStall =
      if status = kIOUSBPipeStalled then 1 else 0) ∧
    (∃ (req : IOUSBDevRequest) (d : List Event),
      (∀ e ∈ d, isDiagnostic e = true) ∧
      (writeCM6206Registers intf byte1 byte2 regNo status).2 =
        Event.ControlRequest intf 0 req :: d ++
          (if status = kIOUSBPipeStalled then [Event.ClearPipeStall intf 0] else [])) ∧
    ((writeCM6206Registers intf byte1 byte2 regNo status).1 ≠ 0 ↔ status ≠ 0) ∧
    ((writeCM6206Registers intf byte1 byte2 regNo kIOUSBPipeStalled).1 ≠ 0) := by
  refine ⟨?_, ?_, ?_, ?_, ?_⟩
  · simp only [writeCM6206Registers, CheckError, ShowError]
    split_ifs <;> simp [isControlRequest]
  · simp only [writeCM6206Registers, CheckError, ShowError]
    split_ifs <;> simp [isClearPipeStall]
  · exact ⟨registerWriteRequest (byte1 % 256) (byte2 % 256) (regNo % 256),
      CheckError status (some "usbWriteCmdWithBRequest"),
      isDiagnostic_CheckError _ _,
      by simp [writeCM6206Registers, registerWriteRequest, USBmakebmRequestType_value]⟩
  · rw [writeCM6206Registers_ret]
    by_cases h : status = 0 <;> simp [h]
  · rw [writeCM6206Registers_ret]
    simp [kIOUSBPipeStalled_ne_zero]

/-! ## Interface claimer -/

theorem isTransferEvent_writeCM6206Registers (intf byte1 byte2 regNo : Nat)
    (status : IOReturn) :
    ∀ e ∈ (writeCM6206Registers intf byte1 byte2 regNo status).2, isTransferEvent e = true := by
  simp only [writeCM6206Registers, CheckError, ShowError]
  split_ifs <;> simp [isTransferEvent, isControlRequest, isClearPipeStall, isDiagnostic]

theorem isTransferEvent_initCM6206 (gVerbose : Int) (intf : Nat) (s1 s2 s3 : IOReturn) :
    ∀ e ∈ (initCM6206 gVerbose intf s1 s2 s3).2, isTransferEvent e = true := by
  intro e he
  simp only [initCM6206, List.mem_append] at he
  rcases he with (((((he | he) | he) | he) | he) | he) | he
  · exact isTransferEvent_writeCM6206Registers _ _ _ _ _ e he
  · split at he <;> simp_all [isTransferEvent, isDiagnostic]
  · exact isTransferEvent_writeCM6206Registers _ _ _ _ _ e he
  · split at he <;> simp_all [isTransferEvent, isDiagnostic]
  · exact isTransferEvent_writeCM6206Registers _ _ _ _ _ e he
  · split at he <;> simp_all [isTransferEvent, isDiagnostic]
  · split at he <;> simp_all [isTransferEvent, isDiagnostic]

theorem countP_initCM6206 (p : Event → Bool)
    (hp : ∀ e, isTransferEvent e = true → p e = false)
    (gVerbose : Int) (intf : Nat) (s1 s2 s3 : IOReturn) :
    (initCM6206 gVerbose intf s1 s2 s3).2.countP p = 0 := by
  rw [List.countP_eq_zero]
  intro e he
  simp [hp e (isTransferEvent_initCM6206 gVerbose intf s1 s2 s3 e he)]

theorem not_isUSBInterfaceOpen_of_isTransferEvent (e : Event)
    (h : isTransferEvent e = true) : isUSBInterfaceOpen e = false := by
  cases e <;> simp_all [isTransferEvent, isUSBInterfaceOpen, isControlRequest,
    isClearPipeStall, isDiagnostic]

theorem not_isUSBInterfaceOpenSeize_of_isTransferEvent (e : Event)
    (h : isTransferEvent e = true) : isUSBInterfaceOpenSeize e = false := by
  cases e <;> simp_all [isTransferEvent, isUSBInterfaceOpenSeize, isControlRequest,
    isClearPipeStall, isDiagnostic]

theorem not_isUSBInterfaceClose_of_isTransferEvent (e : Event)
    (h : isTransferEvent e = true) : isUSBInterfaceClose e = false := by
  cases e <;> simp_all [isTransferEvent, isUSBInterfaceClose, isControlRequest,
    isClearPipeStall, isDiagnostic]

/-- The calls of `dealWithInterface_opened` after `initCM6206`. -/
theorem dealWithInterface_opened_eq (gVerbose : Int) (env : InterfaceEnv) :
    ∃ post : List Event,
      dealWithInterface_opened gVerbose env =
        (initCM6206 gVerbose env.intf env.xfer1 env.xfer2 env.xfer3).2 ++
          [Event.USBInterfaceClose env.intf] ++ post ∧
      controlRequests post = [] ∧
      post.countP isUSBInterfaceOpen = 0 ∧
      post.countP isUSBInterfaceOpenSeize = 0 ∧
      post.countP isUSBInterfaceClose = 0 := by
  refine ⟨_, rfl, ?_, ?_, ?_, ?_⟩ <;>
    split_ifs <;>
    simp [controlRequests, isUSBInterfaceOpen, isUSBInterfaceOpenSeize, isUSBInterfaceClose]

/-- C5: in a run of `dealWithInterface` that reaches the open, `USBInterfaceOpen`
is called once; `USBInterfaceOpenSeize` is called once when the normal open fails
and not at all when it succeeds; when both fail the function returns right after
the seize diagnostic and issues no control request; when either succeeds the trace
holds one run of `initCM6206`, and the control requests of the whole trace are the
three of that run. -/
theorem dealWithInterface_open_fallback (gVerbose : Int) (usbInterfaceRef : Nat)
    (env : InterfaceEnv)
    (hplug : env.createPlugIn = 0 ∧ env.iodev ≠ 0)
    (hquery : env.queryInterface = 0 ∧ env.intf ≠ 0) :
    (dealWithInterface gVerbose usbInterfaceRef env).countP isUSBInterfaceOpen = 1 ∧
    (dealWithInterface gVerbose usbInterfaceRef env).countP isUSBInterfaceOpenSeize =
      (if env.usbInterfaceOpen ≠ 0 then 1 else 0) ∧
    ((env.usbInterfaceOpen ≠ 0 ∧ env.usbInterfaceOpenSeize ≠ 0) →
      (controlRequests (dealWithInterface gVerbose usbInterfaceRef env) = [] ∧
       dealWithInterface gVerbose usbInterfaceRef env =
        [Event.IOCreatePlugInInterfaceForService usbInterfaceRef
           PlugInType.kIOUSBInterfaceUserClientTypeID,
         Event.QueryInterface env.iodev InterfaceID.kIOUSBInterfaceInterfaceID183,
         Event.PlugInRelease env.iodev,
         Event.USBInterfaceOpen env.intf,
         Event.fprintf_stderr "dealWithInterface: unable to open interface. ret = %08x\n"
           [Arg.int env.usbInterfaceOpen],
         Event.USBInterfaceOpenSeize env.intf,
         Event.fprintf_stderr "dealWithInterface: unable to seize interface. ret = %08x\n"
           [Arg.int env.usbInterfaceOpenSeize]])) ∧
    ((env.usbInterfaceOpen = 0 ∨ env.usbInterfaceOpenSeize = 0) →
      ((∃ pre post : List Event,
          dealWithInterface gVerbose usbInterfaceRef env =
            pre ++ (initCM6206 gVerbose env.intf env.xfer1 env.xfer2 env.xfer3).2 ++ post ∧
          controlRequests pre = [] ∧ controlRequests post = []) ∧
       controlRequests (dealWithInterface gVerbose usbInterfaceRef env) =
         [(env.intf, 0, registerWriteRequest 0x00 0x00 0x00),
          (env.intf, 0, registerWriteRequest 0x00 0x30 0x01),
          (env.intf, 0, registerWriteRequest 0x04 0x80 0x02)])) := by
  obtain ⟨hc, hi⟩ := hplug
  obtain ⟨hq, hn⟩ := hquery
  obtain ⟨post, hpost, hcr, ho, hs, _⟩ := dealWithInterface_opened_eq gVerbose env
  have hinit_open := countP_initCM6206 isUSBInterfaceOpen
    not_isUSBInterfaceOpen_of_isTransferEvent gVerbose env.intf env.xfer1 env.xfer2 env.xfer3
  have hinit_seize := countP_initCM6206 isUSBInterfaceOpenSeize
    not_isUSBInterfaceOpenSeize_of_isTransferEvent gVerbose env.intf env.xfer1 env.xfer2
    env.xfer3
  have hinit_cr := controlRequests_initCM6206 gVerbose env.intf env.xfer1 env.xfer2 env.xfer3
  by_cases h1 : env.usbInterfaceOpen = 0
  · refine ⟨?_, ?_, ?_, ?_⟩
    · simp [dealWithInterface, hc, hi, hq, hn, h1, hpost, List.countP_append, hinit_open, ho,
        isUSBInterfaceOpen, List.countP_cons]
    · simp [dealWithInterface, hc, hi, hq, hn, h1, hpost, List.countP_append, hinit_seize, hs,
        isUSBInterfaceOpenSeize, List.countP_cons]
    · intro h
      exact absurd h1 h.1
    · intro _
      refine ⟨⟨[Event.IOCreatePlugInInterfaceForService usbInterfaceRef
           PlugInType.kIOUSBInterfaceUserClientTypeID,
         Event.QueryInterface env.iodev InterfaceID.kIOUSBInterfaceInterfaceID183,
         Event.PlugInRelease env.iodev,
         Event.USBInterfaceOpen env.intf], [Event.USBInterfaceClose env.intf] ++ post, ?_, ?_, ?_⟩,
         ?_⟩
      · simp [dealWithInterface, hc, hi, hq, hn, h1, hpost]
      · simp [controlRequests]
      · simpa [controlRequests] using hcr
      · have heq : dealWithInterface gVerbose usbInterfaceRef env =
            [Event.IOCreatePlugInInterfaceForService usbInterfaceRef
               PlugInType.kIOUSBInterfaceUserClientTypeID,
             Event.QueryInterface env.iodev InterfaceID.kIOUSBInterfaceInterfaceID183,
             Event.PlugInRelease env.iodev,
             Event.USBInterfaceOpen env.intf] ++
            (initCM6206 gVerbose env.intf env.xfer1 env.xfer2 env.xfer3).2 ++
            ([Event.USBInterfaceClose env.intf] ++ post) := by
          simp [dealWithInterface, hc, hi, hq, hn, h1, hpost]
        rw [heq, controlRequests_append, controlRequests_append, controlRequests_append,
          hinit_cr, hcr]
        simp [controlRequests]
  · by_cases h2 : env.usbInterfaceOpenSeize = 0
    · refine ⟨?_, ?_, ?_, ?_⟩
      · simp [dealWithInterface, hc, hi, hq, hn, h1, h2, hpost, List.countP_append,
          hinit_open, ho, isUSBInterfaceOpen, List.countP_cons]
      · simp [dealWithInterface, hc, hi, hq, hn, h1, h2, hpost, List.countP_append,
          hinit_seize, hs, isUSBInterfaceOpenSeize, List.countP_cons]
      · intro h
        exact absurd h2 h.2
      · intro _
        refine ⟨⟨[Event.IOCreatePlugInInterfaceForService usbInterfaceRef
             PlugInType.kIOUSBInterfaceUserClientTypeID,
           Event.QueryInterface env.iodev InterfaceID.kIOUSBInterfaceInterfaceID183,
           Event.PlugInRelease env.iodev,
           Event.USBInterfaceOpen env.intf,
           Event.fprintf_stderr "dealWithInterface: unable to open interface. ret = %08x\n"
             [Arg.int env.usbInterfaceOpen],
           Event.USBInterfaceOpenSeize env.intf],
           [Event.USBInterfaceClose env.intf] ++ post, ?_, ?_, ?_⟩, ?_⟩
        · simp [dealWithInterface, hc, hi, hq, hn, h1, h2, hpost]
        · simp [controlRequests]
        · simpa [controlRequests] using hcr
        · have heq : dealWithInterface gVerbose usbInterfaceRef env =
              [Event.IOCreatePlugInInterfaceForService usbInterfaceRef
                 PlugInType.kIOUSBInterfaceUserClientTypeID,
               Event.QueryInterface env.iodev InterfaceID.kIOUSBInterfaceInterfaceID183,
               Event.PlugInRelease env.iodev,
               Event.USBInterfaceOpen env.intf,
               Event.fprintf_stderr "dealWithInterface: unable to open interface. ret = %08x\n"
                 [Arg.int env.usbInterfaceOpen],
               Event.USBInterfaceOpenSeize env.intf] ++
              (initCM6206 gVerbose env.intf env.xfer1 env.xfer2 env.xfer3).2 ++
              ([Event.USBInterfaceClose env.intf] ++ post) := by
            simp [dealWithInterface, hc, hi, hq, hn, h1, h2, hpost]
          rw [heq, controlRequests_append, controlRequests_append, controlRequests_append,
            hinit_cr, hcr]
          simp [controlRequests]
    · refine ⟨?_, ?_, ?_, ?_⟩
      · simp [dealWithInterface, hc, hi, hq, hn, h1, h2, isUSBInterfaceOpen, List.countP_cons]
      · simp [dealWithInterface, hc, hi, hq, hn, h1, h2, isUSBInterfaceOpenSeize,
          List.countP_cons]
      · intro _
        simp [dealWithInterface, hc, hi, hq, hn, h1, h2, controlRequests]
      · intro h
        rcases h with h | h
        · exact absurd h h1
        · exact absurd h h2

theorem dealWithInterface_open_fallback_witness :
    (seizedInterface.createPlugIn = 0 ∧ seizedInterface.iodev ≠ 0) ∧
    (seizedInterface.queryInterface = 0 ∧ seizedInterface.intf ≠ 0) ∧
    (dealWithInterface 1 42 seizedInterface).countP isUSBInterfaceOpen = 1 ∧
    (dealWithInterface 1 42 seizedInterface).countP isUSBInterfaceOpenSeize =
      (if seizedInterface.usbInterfaceOpen ≠ 0 then 1 else 0) ∧
    controlRequests (dealWithInterface 1 42 seizedInterface) =
      [(seizedInterface.intf, 0, registerWriteRequest 0x00 0x00 0x00),
       (seizedInterface.intf, 0, registerWriteRequest 0x00 0x30 0x01),
       (seizedInterface.intf, 0, registerWriteRequest 0x04 0x80 0x02)] :=
  have h := dealWithInterface_open_fallback 1 42 seizedInterface (by decide) (by decide)
  ⟨by decide, by decide, h.1, h.2.1, (h.2.2.2 (Or.inr rfl)).2⟩

/-- C6: in a run of `dealWithInterface` in which the interface was opened (by the
normal open or by the seize), `USBInterfaceClose` is called once, on the opened
interface, whatever the three control transfers return; the three control
requests all come before it and none comes after it. -/
theorem dealWithInterface_closes_once (gVerbose : Int) (usbInterfaceRef : Nat)
    (env : InterfaceEnv)
    (hplug : env.createPlugIn = 0 ∧ env.iodev ≠ 0)
    (hquery : env.queryInterface = 0 ∧ env.intf ≠ 0)
    (hopen : env.usbInterfaceOpen = 0 ∨ env.usbInterfaceOpenSeize = 0) :
    (dealWithInterface gVerbose usbInterfaceRef env).countP isUSBInterfaceClose = 1 ∧
    ∃ pre post : List Event,
      dealWithInterface gVerbose usbInterfaceRef env =
        pre ++ [Event.USBInterfaceClose env.intf] ++ post ∧
      (Event.USBInterfaceOpen env.intf ∈ pre) ∧
      controlRequests pre =
        [(env.intf, 0, registerWriteRequest 0x00 0x00 0x00),
         (env.intf, 0, registerWriteRequest 0x00 0x30 0x01),
         (env.intf, 0, registerWriteRequest 0x04 0x80 0x02)] ∧
      pre.countP isUSBInterfaceClose = 0 ∧
      controlRequests post = [] ∧
      post.countP isUSBInterfaceClose = 0 := by
  obtain ⟨hc, hi⟩ := hplug
  obtain ⟨hq, hn⟩ := hquery
  obtain ⟨post, hpost, hcr, _, _, hcl⟩ := dealWithInterface_opened_eq gVerbose env
  have hinit_close := countP_initCM6206 isUSBInterfaceClose
    not_isUSBInterfaceClose_of_isTransferEvent gVerbose env.intf env.xfer1 env.xfer2 env.xfer3
  have hinit_cr := controlRequests_initCM6206 gVerbose env.intf env.xfer1 env.xfer2 env.xfer3
  have key : ∃ pre0 : List Event,
      dealWithInterface gVerbose usbInterfaceRef env =
        (pre0 ++ (initCM6206 gVerbose env.intf env.xfer1 env.xfer2 env.xfer3).2) ++
          [Event.USBInterfaceClose env.intf] ++ post ∧
      Event.USBInterfaceOpen env.intf ∈ pre0 ∧ controlRequests pre0 = [] ∧
      pre0.countP isUSBInterfaceClose = 0 := by
    by_cases h1 : env.usbInterfaceOpen = 0
    · refine ⟨[Event.IOCreatePlugInInterfaceForService usbInterfaceRef
           PlugInType.kIOUSBInterfaceUserClientTypeID,
         Event.QueryInterface env.iodev InterfaceID.kIOUSBInterfaceInterfaceID183,
         Event.PlugInRelease env.iodev,
         Event.USBInterfaceOpen env.intf], ?_, ?_, ?_, ?_⟩
      · simp [dealWithInterface, hc, hi, hq, hn, h1, hpost]
      · simp
      · simp [controlRequests]
      · simp [isUSBInterfaceClose, List.countP_cons]
    · have h2 : env.usbInterfaceOpenSeize = 0 := by
        rcases hopen with h | h
        · exact absurd h h1
        · exact h
      refine ⟨[Event.IOCreatePlugInInterfaceForService usbInterfaceRef
           PlugInType.kIOUSBInterfaceUserClientTypeID,
         Event.QueryInterface env.iodev InterfaceID.kIOUSBInterfaceInterfaceID183,
         Event.PlugInRelease env.iodev,
         Event.USBInterfaceOpen env.intf,
         Event.fprintf_stderr "dealWithInterface: unable to open interface. ret = %08x\n"
           [Arg.int env.usbInterfaceOpen],
         Event.USBInterfaceOpenSeize env.intf], ?_, ?_, ?_, ?_⟩
      · simp [dealWithInterface, hc, hi, hq, hn, h1, h2, hpost]
      · simp
      · simp [controlRequests]
      · simp [isUSBInterfaceClose, List.countP_cons]
  obtain ⟨pre0, heq, hmem, hpre_cr, hpre_cl⟩ := key
  refine ⟨?_, pre0 ++ (initCM6206 gVerbose env.intf env.xfer1 env.xfer2 env.xfer3).2, post,
    heq, ?_, ?_, ?_, hcr, hcl⟩
  · rw [heq]
    simp [List.countP_append, hpre_cl, hinit_close, hcl, isUSBInterfaceClose, List.countP_cons]
  · exact List.mem_append_left _ hmem
  · rw [controlRequests_append, hpre_cr, hinit_cr]
    rfl
  · simp [List.countP_append, hpre_cl, hinit_close]

theorem dealWithInterface_closes_once_witness :
    (seizedInterface.createPlugIn = 0 ∧ seizedInterface.iodev ≠ 0) ∧
    (seizedInterface.queryInterface = 0 ∧ seizedInterface.intf ≠ 0) ∧
    (seizedInterface.usbInterfaceOpen = 0 ∨ seizedInterface.usbInterfaceOpenSeize = 0) ∧
    (dealWithInterface 0 42 seizedInterface).countP isUSBInterfaceClose = 1 :=
  ⟨by decide, by decide, by decide,
   (dealWithInterface_closes_once 0 42 seizedInterface (by decide) (by decide) (by decide)).1⟩

/-! ## Device session: the open-retry loop -/

theorem openLoop_success (dev : Nat) (results : Nat → IOReturn) (i : Nat) (nAttempts : Int)
    (h : results i = 0) :
    openLoop dev results i nAttempts = (0, [Event.USBDeviceOpen dev]) := by
  rw [openLoop]
  simp [h, openAttempt]

theorem openLoop_fail_last (dev : Nat) (results : Nat → IOReturn) (i : Nat) (nAttempts : Int)
    (h : results i ≠ 0) (hn : nAttempts ≤ 1) :
    openLoop dev results i nAttempts =
      (results i,
       [Event.USBDeviceOpen dev,
        Event.fprintf_stderr "Trying to open device, %d seconds left...\n"
          [Arg.int nAttempts]]) := by
  rw [openLoop]
  have h1 : ¬ (nAttempts - 1 > 0) := by omega
  have h2 : ¬ (nAttempts > 1) := by omega
  simp [h, openAttempt, h1, h2]

theorem openLoop_fail_more (dev : Nat) (results : Nat → IOReturn) (i : Nat) (nAttempts : Int)
    (h : results i ≠ 0) (hn : 1 < nAttempts) :
    openLoop dev results i nAttempts =
      ((openLoop dev results (i + 1) (nAttempts - 1)).1,
       [Event.USBDeviceOpen dev,
        Event.fprintf_stderr "Trying to open device, %d seconds left...\n"
          [Arg.int nAttempts],
        Event.sleep 1] ++ (openLoop dev results (i + 1) (nAttempts - 1)).2) := by
  rw [openLoop]
  have h1 : nAttempts - 1 > 0 := by omega
  simp [h, openAttempt, h1, hn]

theorem openLoop_failedAttempts (dev : Nat) (results : Nat → IOReturn) (j : Nat) :
    ∀ (i : Nat) (nAttempts : Int), (j : Int) < nAttempts →
      (∀ m, m < j → results (i + m) ≠ 0) →
      openLoop dev results i nAttempts =
        ((openLoop dev results (i + j) (nAttempts - j)).1,
         failedAttempts dev nAttempts j ++
           (openLoop dev results (i + j) (nAttempts - j)).2) := by
  induction j with
  | zero =>
    intro i nAttempts _ _
    simp [failedAttempts]
  | succ j ih =>
    intro i nAttempts hn hfail
    have h0 : results i ≠ 0 := by simpa using hfail 0 (Nat.succ_pos j)
    have hn1 : 1 < nAttempts := by push_cast at hn; omega
    rw [openLoop_fail_more dev results i nAttempts h0 hn1]
    have hrec := ih (i + 1) (nAttempts - 1) (by push_cast at hn; omega)
      (fun m hm => by
        have := hfail (m + 1) (by omega)
        rwa [show i + (m + 1) = i + 1 + m by omega] at this)
    rw [hrec]
    have e1 : i + 1 + j = i + (j + 1) := by omega
    have e2 : nAttempts - 1 - (j : Int) = nAttempts - ((j + 1 : Nat) : Int) := by
      push_cast; omega
    rw [e1, e2]
    simp [failedAttempts, List.append_assoc]

theorem countP_isUSBDeviceOpen_failedAttempts (dev : Nat) (j : Nat) :
    ∀ nAttempts : Int, (failedAttempts dev nAttempts j).countP isUSBDeviceOpen = j := by
  induction j with
  | zero => intro _; rfl
  | succ j ih =>
    intro n
    simp [failedAttempts, List.countP_cons, isUSBDeviceOpen, ih (n - 1)]

theorem countP_isSleep_failedAttempts (dev : Nat) (j : Nat) :
    ∀ nAttempts : Int, (failedAttempts dev nAttempts j).countP isSleep = j := by
  induction j with
  | zero => intro _; rfl
  | succ j ih =>
    intro n
    simp [failedAttempts, List.countP_cons, isSleep, ih (n - 1)]

/-- The open-retry loop entered with the counter at 20, when the first `k - 1`
opens fail and the `k`-th succeeds or is the 20th. -/
theorem openLoop_twenty (dev : Nat) (results : Nat → IOReturn) (k : Nat)
    (hk : 1 ≤ k ∧ k ≤ 20)
    (hfail : ∀ j, j < k - 1 → results j ≠ 0)
    (hlast : results (k - 1) = 0 ∨ k = 20) :
    openLoop dev results 0 20 =
      (results (k - 1),
       failedAttempts dev 20 (k - 1) ++ [Event.USBDeviceOpen dev] ++
       (if results (k - 1) ≠ 0 then
          [Event.fprintf_stderr "Trying to open device, %d seconds left...\n" [Arg.int 1]]
        else [])) := by
  have hstep := openLoop_failedAttempts dev results (k - 1) 0 20 (by omega)
    (fun m hm => by simpa using hfail m hm)
  rw [hstep]
  simp only [Nat.zero_add]
  by_cases h0 : results (k - 1) = 0
  · rw [openLoop_success dev results (k - 1) _ h0]
    simp [h0]
  · have hk20 : k = 20 := by
      rcases hlast with h | h
      · exact absurd h h0
      · exact h
    subst hk20
    rw [openLoop_fail_last dev results _ _ h0 (by norm_num)]
    simp [h0]

theorem isInterfaceCall_of_isTransferEvent (e : Event) (h : isTransferEvent e = true) :
    isInterfaceCall e = true := by
  cases e <;> simp_all [isTransferEvent, isInterfaceCall, isControlRequest,
    isClearPipeStall, isDiagnostic]

theorem isOpenedDeviceCall_of_isInterfaceCall (e : Event) (h : isInterfaceCall e = true) :
    isOpenedDeviceCall e = true := by
  cases e <;> simp_all [isOpenedDeviceCall, isInterfaceCall]

theorem isInterfaceCall_dealWithInterface_opened (gVerbose : Int) (env : InterfaceEnv) :
    ∀ e ∈ dealWithInterface_opened gVerbose env, isInterfaceCall e = true := by
  have hinit : (initCM6206 gVerbose env.intf env.xfer1 env.xfer2 env.xfer3).2.all
      isInterfaceCall = true := by
    rw [List.all_eq_true]
    intro e he
    exact isInterfaceCall_of_isTransferEvent e (isTransferEvent_initCM6206 _ _ _ _ _ e he)
  rw [← List.all_eq_true]
  simp only [dealWithInterface_opened]
  split_ifs <;> simp [List.all_append, hinit, isInterfaceCall]

theorem isInterfaceCall_dealWithInterface (gVerbose : Int) (usbInterfaceRef : Nat)
    (env : InterfaceEnv) :
    ∀ e ∈ dealWithInterface gVerbose usbInterfaceRef env, isInterfaceCall e = true := by
  have hopened : (dealWithInterface_opened gVerbose env).all isInterfaceCall = true :=
    List.all_eq_true.mpr (isInterfaceCall_dealWithInterface_opened gVerbose env)
  rw [← List.all_eq_true]
  simp only [dealWithInterface]
  split_ifs <;> simp [List.all_append, hopened, isInterfaceCall]

theorem isOpenedDeviceCall_interfaceLoop (gVerbose : Int) (iterator : Nat)
    (interfaces : List (Nat × InterfaceEnv)) :
    ∀ (nCount : Int) (e : Event), e ∈ interfaceLoop gVerbose iterator interfaces nCount →
      isOpenedDeviceCall e = true := by
  induction interfaces with
  | nil =>
    intro nCount e he
    simp only [interfaceLoop, List.mem_singleton] at he
    subst he
    rfl
  | cons hd tl ih =>
    intro nCount e he
    obtain ⟨usbInterfaceRef, env⟩ := hd
    simp only [interfaceLoop, List.mem_append, List.mem_singleton] at he
    rcases he with ((he | he) | he) | he
    · subst he
      rfl
    · split_ifs at he
      · exact isOpenedDeviceCall_of_isInterfaceCall e
          (isInterfaceCall_dealWithInterface gVerbose usbInterfaceRef env e he)
      · simp at he
    · subst he
      rfl
    · exact ih (nCount + 1) e he

theorem isOpenedDeviceCall_dealWithDevice_enumerate (gVerbose : Int) (env : DeviceEnv) :
    ∀ e ∈ dealWithDevice_enumerate gVerbose env, isOpenedDeviceCall e = true := by
  have hloop : (interfaceLoop gVerbose env.iterator env.interfaces 0).all
      isOpenedDeviceCall = true :=
    List.all_eq_true.mpr (isOpenedDeviceCall_interfaceLoop gVerbose env.iterator env.interfaces 0)
  rw [← List.all_eq_true]
  simp only [dealWithDevice_enumerate]
  split_ifs <;> simp [List.all_append, hloop, isOpenedDeviceCall, isInterfaceCall]

theorem isOpenedDeviceCall_dealWithDevice_opened (gVerbose : Int) (env : DeviceEnv) :
    ∀ e ∈ dealWithDevice_opened gVerbose env, isOpenedDeviceCall e = true := by
  have henum : (dealWithDevice_enumerate gVerbose env).all isOpenedDeviceCall = true :=
    List.all_eq_true.mpr (isOpenedDeviceCall_dealWithDevice_enumerate gVerbose env)
  rw [← List.all_eq_true]
  simp only [dealWithDevice_opened, closeAndRelease]
  split_ifs <;> simp [List.all_append, henum, isOpenedDeviceCall, isInterfaceCall]

theorem countP_dealWithDevice_opened (p : Event → Bool)
    (hp : ∀ e, isOpenedDeviceCall e = true → p e = false)
    (gVerbose : Int) (env : DeviceEnv) :
    (dealWithDevice_opened gVerbose env).countP p = 0 := by
  rw [List.countP_eq_zero]
  intro e he
  simp [hp e (isOpenedDeviceCall_dealWithDevice_opened gVerbose env e he)]

theorem not_isUSBDeviceOpen_of_isOpenedDeviceCall (e : Event)
    (h : isOpenedDeviceCall e = true) : isUSBDeviceOpen e = false := by
  cases e <;> simp_all [isOpenedDeviceCall, isInterfaceCall, isUSBDeviceOpen]

theorem not_isSleep_of_isOpenedDeviceCall (e : Event)
    (h : isOpenedDeviceCall e = true) : isSleep e = false := by
  cases e <;> simp_all [isOpenedDeviceCall, isInterfaceCall, isSleep]

/-- C7: in a session that reaches the open-retry loop, when the first `k - 1` calls
of `USBDeviceOpen` fail and the `k`-th (`1 ≤ k ≤ 20`) succeeds or is the 20th, the
loop ends with the status of the `k`-th call; its trace is `k - 1` failed passes,
each an open, a diagnostic and a one-second wait, then the `k`-th open, followed
only by a diagnostic (no wait) when that one fails too; the whole session calls
`USBDeviceOpen` `k` times and waits `k - 1` times; and when the 20th open fails the
session returns right after the loop with one more diagnostic. -/
theorem dealWithDevice_open_retry (gVerbose : Int) (usbDeviceRef : Nat) (env : DeviceEnv)
    (k : Nat)
    (hplug : env.createPlugIn = 0 ∧ env.iodev ≠ 0)
    (hquery : env.queryInterface = 0 ∧ env.dev ≠ 0)
    (hk : 1 ≤ k ∧ k ≤ 20)
    (hfail : ∀ j, j < k - 1 → env.usbDeviceOpen j ≠ 0)
    (hlast : env.usbDeviceOpen (k - 1) = 0 ∨ k = 20) :
    (openLoop env.dev env.usbDeviceOpen 0 20).1 = env.usbDeviceOpen (k - 1) ∧
    (openLoop env.dev env.usbDeviceOpen 0 20).2 =
      failedAttempts env.dev 20 (k - 1) ++ [Event.USBDeviceOpen env.dev] ++
        (if env.usbDeviceOpen (k - 1) ≠ 0 then
           [Event.fprintf_stderr "Trying to open device, %d seconds left...\n" [Arg.int 1]]
         else []) ∧
    (dealWithDevice gVerbose usbDeviceRef env).countP isUSBDeviceOpen = k ∧
    (dealWithDevice gVerbose usbDeviceRef env).countP isSleep = k - 1 ∧
    (env.usbDeviceOpen (k - 1) ≠ 0 →
      dealWithDevice gVerbose usbDeviceRef env =
        [Event.IOCreatePlugInInterfaceForService usbDeviceRef
           PlugInType.kIOUSBDeviceUserClientTypeID,
         Event.QueryInterface env.iodev InterfaceID.kIOUSBDeviceInterfaceID197,
         Event.PlugInRelease env.iodev] ++
        (openLoop env.dev env.usbDeviceOpen 0 20).2 ++
        [Event.fprintf_stderr "dealWithDevice: unable to open device. ret = %08x\n"
           [Arg.int (env.usbDeviceOpen (k - 1))]]) ∧
    (env.usbDeviceOpen (k - 1) = 0 →
      dealWithDevice gVerbose usbDeviceRef env =
        [Event.IOCreatePlugInInterfaceForService usbDeviceRef
           PlugInType.kIOUSBDeviceUserClientTypeID,
         Event.QueryInterface env.iodev InterfaceID.kIOUSBDeviceInterfaceID197,
         Event.PlugInRelease env.iodev] ++
        (openLoop env.dev env.usbDeviceOpen 0 20).2 ++
        dealWithDevice_opened gVerbose env) := by
  obtain ⟨hc, hi⟩ := hplug
  obtain ⟨hq, hn⟩ := hquery
  have hloop := openLoop_twenty env.dev env.usbDeviceOpen k hk hfail hlast
  have hopen0 := countP_dealWithDevice_opened isUSBDeviceOpen
    not_isUSBDeviceOpen_of_isOpenedDeviceCall gVerbose env
  have hsleep0 := countP_dealWithDevice_opened isSleep
    not_isSleep_of_isOpenedDeviceCall gVerbose env
  have hfo := countP_isUSBDeviceOpen_failedAttempts env.dev (k - 1) 20
  have hfs := countP_isSleep_failedAttempts env.dev (k - 1) 20
  have hk1 : k - 1 + 1 = k := by omega
  refine ⟨by rw [hloop], by rw [hloop], ?_, ?_, ?_, ?_⟩
  · by_cases h0 : env.usbDeviceOpen (k - 1) = 0
    · simp [dealWithDevice, hc, hi, hq, hn, hloop, h0, List.countP_append, List.countP_cons,
        hfo, hopen0, isUSBDeviceOpen, hk1]
    · simp [dealWithDevice, hc, hi, hq, hn, hloop, h0, List.countP_append, List.countP_cons,
        hfo, isUSBDeviceOpen, hk1]
  · by_cases h0 : env.usbDeviceOpen (k - 1) = 0
    · simp [dealWithDevice, hc, hi, hq, hn, hloop, h0, List.countP_append, List.countP_cons,
        hfs, hsleep0, isSleep]
    · simp [dealWithDevice, hc, hi, hq, hn, hloop, h0, List.countP_append, List.countP_cons,
        hfs, isSleep]
  · intro h0
    simp [dealWithDevice, hc, hi, hq, hn, hloop, h0]
  · intro h0
    simp [dealWithDevice, hc, hi, hq, hn, hloop, h0]

theorem dealWithDevice_open_retry_witness :
    (slowDevice.createPlugIn = 0 ∧ slowDevice.iodev ≠ 0) ∧
    (slowDevice.queryInterface = 0 ∧ slowDevice.dev ≠ 0) ∧
    (1 ≤ 3 ∧ 3 ≤ 20) ∧
    (∀ j, j < 3 - 1 → slowDevice.usbDeviceOpen j ≠ 0) ∧
    (slowDevice.usbDeviceOpen (3 - 1) = 0 ∨ 3 = 20) ∧
    (dealWithDevice 1 7 slowDevice).countP isUSBDeviceOpen = 3 ∧
    (dealWithDevice 1 7 slowDevice).countP isSleep = 3 - 1 :=
  have h := dealWithDevice_open_retry 1 7 slowDevice 3 (by decide) (by decide) (by decide)
    (by decide) (by decide)
  ⟨by decide, by decide, by decide, by decide, by decide, h.2.2.1, h.2.2.2.1⟩

/-! ## Device session: the interface loop -/

theorem isOpenLoopCall_openLoop (dev : Nat) (results : Nat → IOReturn) (m : Nat) :
    ∀ (i : Nat) (nAttempts : Int), nAttempts.toNat ≤ m →
      ∀ e ∈ (openLoop dev results i nAttempts).2, isOpenLoopCall e = true := by
  induction m with
  | zero =>
    intro i nAttempts hm e he
    by_cases h0 : results i = 0
    · rw [openLoop_success dev results i nAttempts h0] at he
      simp only [List.mem_singleton] at he
      subst he
      rfl
    · rw [openLoop_fail_last dev results i nAttempts h0 (by omega)] at he
      simp only [List.mem_cons, List.mem_singleton, List.not_mem_nil, or_false] at he
      rcases he with he | he <;> subst he <;> rfl
  | succ m ih =>
    intro i nAttempts hm e he
    by_cases h0 : results i = 0
    · rw [openLoop_success dev results i nAttempts h0] at he
      simp only [List.mem_singleton] at he
      subst he
      rfl
    · by_cases h1 : nAttempts ≤ 1
      · rw [openLoop_fail_last dev results i nAttempts h0 h1] at he
        simp only [List.mem_cons, List.mem_singleton, List.not_mem_nil, or_false] at he
        rcases he with he | he <;> subst he <;> rfl
      · rw [openLoop_fail_more dev results i nAttempts h0 (by omega)] at he
        simp only [List.mem_append, List.mem_cons, List.mem_singleton, List.not_mem_nil,
          or_false] at he
        rcases he with (he | he | he) | he
        · subst he; rfl
        · subst he; rfl
        · subst he; rfl
        · exact ih (i + 1) (nAttempts - 1) (by omega) e he

theorem filterMap_eq_nil_of_class {β : Type} (f : Event → Option β) (c : Event → Bool)
    (hf : ∀ e, c e = true → f e = none) (l : List Event) (hl : ∀ e ∈ l, c e = true) :
    l.filterMap f = [] := by
  rw [List.filterMap_eq_nil_iff]
  intro e he
  exact hf e (hl e he)

theorem objectReleases_append (a b : List Event) :
    objectReleases (a ++ b) = objectReleases a ++ objectReleases b := by
  simp [objectReleases]

theorem objectReleases_dealWithInterface (gVerbose : Int) (usbInterfaceRef : Nat)
    (env : InterfaceEnv) :
    objectReleases (dealWithInterface gVerbose usbInterfaceRef env) = [] := by
  refine filterMap_eq_nil_of_class _ isInterfaceCall ?_ _
    (isInterfaceCall_dealWithInterface gVerbose usbInterfaceRef env)
  intro e he
  cases e <;> simp_all [isInterfaceCall]

/-- C9: a device whose object is created (`QueryInterface` succeeds and stores a
non-null `dev`) and whose 20 opens all fail: `dealWithDevice` returns right after
the loop with a diagnostic and never calls `Release` on `dev`, although the abort
after a failed `GetNumberOfConfigurations` (and every later abort) closes and
releases it. -/
theorem dealWithDevice_open_failure_skips_release :
    (deadDevice.createPlugIn = 0 ∧ deadDevice.iodev ≠ 0) ∧
    (deadDevice.queryInterface = 0 ∧ deadDevice.dev ≠ 0) ∧
    (∀ j, j < 20 → deadDevice.usbDeviceOpen j ≠ 0) ∧
    dealWithDevice 1 7 deadDevice =
      [Event.IOCreatePlugInInterfaceForService 7 PlugInType.kIOUSBDeviceUserClientTypeID,
       Event.QueryInterface 21 InterfaceID.kIOUSBDeviceInterfaceID197,
       Event.PlugInRelease 21] ++
      failedAttempts 22 20 19 ++
      [Event.USBDeviceOpen 22,
       Event.fprintf_stderr "Trying to open device, %d seconds left...\n" [Arg.int 1],
       Event.fprintf_stderr "dealWithDevice: unable to open device. ret = %08x\n"
         [Arg.int 0x2c5]] ∧
    (dealWithDevice 1 7 deadDevice).countP isDeviceRelease = 0 ∧
    (dealWithDevice 1 7 unconfiguredDevice).countP isDeviceRelease = 1 := by
  have hloop := openLoop_twenty 22 deadDevice.usbDeviceOpen 20 (by decide)
    (by intro j _; show (0x2c5 : Int) ≠ 0; decide) (Or.inr rfl)
  have htrace : dealWithDevice 1 7 deadDevice =
      [Event.IOCreatePlugInInterfaceForService 7 PlugInType.kIOUSBDeviceUserClientTypeID,
       Event.QueryInterface 21 InterfaceID.kIOUSBDeviceInterfaceID197,
       Event.PlugInRelease 21] ++
      failedAttempts 22 20 19 ++
      [Event.USBDeviceOpen 22,
       Event.fprintf_stderr "Trying to open device, %d seconds left...\n" [Arg.int 1],
       Event.fprintf_stderr "dealWithDevice: unable to open device. ret = %08x\n"
         [Arg.int 0x2c5]] := by
    have h1 : deadDevice.dev = 22 := rfl
    simp only [dealWithDevice, h1, hloop]
    simp [deadDevice]
  refine ⟨by decide, by decide, by intro j _; show (0x2c5 : Int) ≠ 0; decide, htrace, ?_, ?_⟩
  · rw [htrace]
    decide
  · have hopen := openLoop_success 22 unconfiguredDevice.usbDeviceOpen 0 20 rfl
    have h1 : unconfiguredDevice.dev = 22 := rfl
    simp only [dealWithDevice, h1, hopen]
    decide

/-! ## Bus scan -/

theorem sessionStarts_append (a b : List Event) :
    sessionStarts (a ++ b) = sessionStarts a ++ sessionStarts b := by
  simp [sessionStarts]

theorem sessionStarts_openLoop (dev : Nat) (results : Nat → IOReturn) :
    sessionStarts (openLoop dev results 0 20).2 = [] := by
  refine filterMap_eq_nil_of_class _ isOpenLoopCall ?_ _
    (isOpenLoopCall_openLoop dev results 20 0 20 (by decide))
  intro e he
  cases e <;> simp_all [isOpenLoopCall]

theorem sessionStarts_dealWithDevice_opened (gVerbose : Int) (env : DeviceEnv) :
    sessionStarts (dealWithDevice_opened gVerbose env) = [] := by
  refine filterMap_eq_nil_of_class _ isOpenedDeviceCall ?_ _
    (isOpenedDeviceCall_dealWithDevice_opened gVerbose env)
  intro e he
  cases e with
  | IOCreatePlugInInterfaceForService r t =>
    cases t <;> simp_all [isOpenedDeviceCall, isInterfaceCall]
  | _ => simp_all [isOpenedDeviceCall, isInterfaceCall]

/-- Every run of `dealWithDevice` asks for the device user client once, as its
first call. -/
theorem sessionStarts_dealWithDevice (gVerbose : Int) (usbDeviceRef : Nat) (env : DeviceEnv) :
    sessionStarts (dealWithDevice gVerbose usbDeviceRef env) = [usbDeviceRef] := by
  have hloop := sessionStarts_openLoop env.dev env.usbDeviceOpen
  have hopened := sessionStarts_dealWithDevice_opened gVerbose env
  simp only [dealWithDevice]
  split_ifs <;>
    simp only [sessionStarts_append, hloop, hopened, List.append_nil] <;> rfl

theorem ActivateDevices_ret (gVerbose : Int) (env : ScanEnv) :
    (ActivateDevices gVerbose env).1 =
      if env.ioMasterPort ≠ 0 then env.ioMasterPort
      else (makeDictionary env.dictionary kVendorID kProductID).1 := by
  unfold ActivateDevices
  by_cases hp : env.ioMasterPort = 0
  · by_cases hd : (makeDictionary env.dictionary kVendorID kProductID).1 = 0
    · simp [hp, hd]
    · simp [hp, hd]
  · simp [hp]

theorem deviceLoop_found (gVerbose : Int) (iterator : Nat) (devices : List (Nat × DeviceEnv)) :
    (deviceLoop gVerbose iterator devices 0).1 = if devices.length = 0 then 0 else 1 := by
  have hone : ∀ l : List (Nat × DeviceEnv), (deviceLoop gVerbose iterator l 1).1 = 1 := by
    intro l
    induction l with
    | nil => rfl
    | cons hd tl ih =>
      obtain ⟨r, e⟩ := hd
      simpa [deviceLoop] using ih
  cases devices with
  | nil => rfl
  | cons hd tl =>
    obtain ⟨r, e⟩ := hd
    simpa [deviceLoop] using hone tl

/-- C11, as stated, fails: with the master port and the dictionary obtained,
`ActivateDevices` returns 0 for a bus with one matching device and 0 for a bus
with none, so the returned value does not tell the two apart. -/
theorem ActivateDevices_return_ignores_found :
    emptyScan.devices.length = 0 ∧ oneDeviceScan.devices.length = 1 ∧
    (ActivateDevices 1 emptyScan).1 = 0 ∧ (ActivateDevices 1 oneDeviceScan).1 = 0 ∧
    ¬ ((ActivateDevices 1 emptyScan).1 ≠ (ActivateDevices 1 oneDeviceScan).1) := by
  have h0 : (ActivateDevices 1 emptyScan).1 = 0 := by
    rw [ActivateDevices_ret]
    decide
  have h1 : (ActivateDevices 1 oneDeviceScan).1 = 0 := by
    rw [ActivateDevices_ret]
    decide
  refine ⟨rfl, rfl, h0, h1, ?_⟩
  rw [h0, h1]
  simp

/-- C11, amended: when the master port and the dictionary are obtained,
`ActivateDevices` returns 0 whatever was enumerated; whether a matching device was
enumerated ends in the local `foundDevice` (1 when the enumeration is non-empty, 0
when it is empty), and that flag only decides whether, in verbose mode, the
message that no device was found is written after the loop. -/
theorem ActivateDevices_found_flag (gVerbose : Int) (env : ScanEnv)
    (hport : env.ioMasterPort = 0)
    (hdict : (makeDictionary env.dictionary kVendorID kProductID).1 = 0) :
    (ActivateDevices gVerbose env).1 = 0 ∧
    (deviceLoop gVerbose env.iterator env.devices 0).1 =
      (if env.devices.length = 0 then 0 else 1) ∧
    (ActivateDevices gVerbose env).2 =
      [Event.IOMasterPort] ++ (makeDictionary env.dictionary kVendorID kProductID).2 ++
      [Event.IOServiceGetMatchingServices env.masterPort env.dictionary.matchingDictionary] ++
      (deviceLoop gVerbose env.iterator env.devices 0).2 ++
      (if env.devices.length = 0 ∧ gVerbose ≠ 0 then
         [Event.fprintf_stderr "No CM6206 device found on the USB bus.\n" []]
       else []) ++
      [Event.IOObjectRelease env.iterator, Event.mach_port_deallocate env.masterPort] := by
  have hfound := deviceLoop_found gVerbose env.iterator env.devices
  refine ⟨?_, hfound, ?_⟩
  · rw [ActivateDevices_ret]
    simp [hport, hdict]
  · simp only [ActivateDevices, hport, hdict, ne_eq, not_true_eq_false, if_false, hfound]
    by_cases hd : env.devices.length = 0 <;> simp [hd]

theorem ActivateDevices_found_flag_witness :
    oneDeviceScan.ioMasterPort = 0 ∧
    (makeDictionary oneDeviceScan.dictionary kVendorID kProductID).1 = 0 ∧
    (ActivateDevices 1 oneDeviceScan).1 = 0 ∧
    (deviceLoop 1 oneDeviceScan.iterator oneDeviceScan.devices 0).1 =
      (if oneDeviceScan.devices.length = 0 then 0 else 1) :=
  have h := ActivateDevices_found_flag 1 oneDeviceScan (by decide) (by decide)
  ⟨by decide, by decide, h.1, h.2.1⟩

/-! ## Control-transfer client: the returned value -/

/-- C16, as stated, fails: for the two different failing statuses
`kIOUSBPipeStalled` and 7, `writeCM6206Registers` returns the same value 1, which
is neither status. -/
theorem writeCM6206Registers_return_not_status :
    kIOUSBPipeStalled ≠ 0 ∧ (7 : IOReturn) ≠ 0 ∧ kIOUSBPipeStalled ≠ 7 ∧
    (writeCM6206Registers 12 0x00 0x30 0x01 kIOUSBPipeStalled).1 = 1 ∧
    (writeCM6206Registers 12 0x00 0x30 0x01 7).1 = 1 ∧
    (writeCM6206Registers 12 0x00 0x30 0x01 kIOUSBPipeStalled).1 ≠ kIOUSBPipeStalled ∧
    (writeCM6206Registers 12 0x00 0x30 0x01 7).1 ≠ 7 := by
  simp only [writeCM6206Registers_ret]
  decide

/-- C16, amended: `writeCM6206Registers` returns 1 for every non-zero status and 0
for status 0; the status itself goes only into the diagnostic that `CheckError`
writes, which names the error of exactly that status. -/
theorem writeCM6206Registers_return_flag (intf byte1 byte2 regNo : Nat) (status : IOReturn) :
    (writeCM6206Registers intf byte1 byte2 regNo status).1 = (if status ≠ 0 then 1 else 0) ∧
    (Event.fprintf_stderr "Error: %s " [Arg.errorName status] ∈
        (writeCM6206Registers intf byte1 byte2 regNo status).2 ↔ status ≠ 0) := by
  refine ⟨writeCM6206Registers_ret intf byte1 byte2 regNo status, ?_⟩
  simp only [writeCM6206Registers, CheckError, ShowError]
  split_ifs <;> simp_all

/-! ## Power events -/

theorem isSessionCall_dealWithDevice (gVerbose : Int) (usbDeviceRef : Nat) (env : DeviceEnv) :
    ∀ e ∈ dealWithDevice gVerbose usbDeviceRef env, isSessionCall e = true := by
  have hloop : (openLoop env.dev env.usbDeviceOpen 0 20).2.all isSessionCall = true := by
    rw [List.all_eq_true]
    intro e he
    simp [isSessionCall, isOpenLoopCall_openLoop env.dev env.usbDeviceOpen 20 0 20
      (by decide) e he]
  have hopened : (dealWithDevice_opened gVerbose env).all isSessionCall = true := by
    rw [List.all_eq_true]
    intro e he
    simp [isSessionCall, isOpenedDeviceCall_dealWithDevice_opened gVerbose env e he]
  rw [← List.all_eq_true]
  simp only [dealWithDevice]
  split_ifs <;>
    simp [List.all_append, hloop, hopened, isSessionCall, isOpenLoopCall, isOpenedDeviceCall,
      isInterfaceCall]

theorem isScanCall_deviceLoop (gVerbose : Int) (iterator : Nat)
    (devices : List (Nat × DeviceEnv)) :
    ∀ (foundDevice : Int) (e : Event),
      e ∈ (deviceLoop gVerbose iterator devices foundDevice).2 → isScanCall e = true := by
  induction devices with
  | nil =>
    intro _ e he
    simp only [deviceLoop, List.mem_singleton] at he
    subst he
    rfl
  | cons hd tl ih =>
    intro _ e he
    obtain ⟨r, env⟩ := hd
    simp only [deviceLoop, List.mem_append, List.mem_singleton] at he
    rcases he with (((he | he) | he) | he) | he
    · subst he
      rfl
    · split_ifs at he
      · simp only [List.mem_singleton] at he
        subst he
        rfl
      · simp at he
    · simp [isScanCall, isSessionCall_dealWithDevice gVerbose r env e he]
    · subst he
      rfl
    · exact ih 1 e he

theorem isScanCall_makeDictionary (env : DictionaryEnv) (idVendor idProduct : Int) :
    ∀ e ∈ (makeDictionary env idVendor idProduct).2, isScanCall e = true := by
  rw [← List.all_eq_true]
  unfold makeDictionary
  split_ifs <;> rfl

theorem isScanCall_ActivateDevices (gVerbose : Int) (env : ScanEnv) :
    ∀ e ∈ (ActivateDevices gVerbose env).2, isScanCall e = true := by
  have hdict : (makeDictionary env.dictionary kVendorID kProductID).2.all isScanCall = true :=
    List.all_eq_true.mpr (isScanCall_makeDictionary _ _ _)
  have hloop : (deviceLoop gVerbose env.iterator env.devices 0).2.all isScanCall = true :=
    List.all_eq_true.mpr (isScanCall_deviceLoop gVerbose env.iterator env.devices 0)
  rw [← List.all_eq_true]
  simp only [ActivateDevices]
  split_ifs <;>
    simp [List.all_append, hdict, hloop, isScanCall, isSessionCall, isOpenLoopCall,
      isOpenedDeviceCall, isInterfaceCall]

theorem countP_ActivateDevices (p : Event → Bool)
    (hp : ∀ e, isScanCall e = true → p e = false) (gVerbose : Int) (env : ScanEnv) :
    (ActivateDevices gVerbose env).2.countP p = 0 := by
  rw [List.countP_eq_zero]
  intro e he
  simp [hp e (isScanCall_ActivateDevices gVerbose env e he)]

theorem not_isIOAllowPowerChange_of_isScanCall (e : Event) (h : isScanCall e = true) :
    isIOAllowPowerChange e = false := by
  cases e <;> simp_all [isScanCall, isSessionCall, isOpenLoopCall, isOpenedDeviceCall,
    isInterfaceCall, isIOAllowPowerChange]

theorem not_isFree_of_isScanCall (e : Event) (h : isScanCall e = true) :
    isFree e = false := by
  cases e <;> simp_all [isScanCall, isSessionCall, isOpenLoopCall, isOpenedDeviceCall,
    isInterfaceCall, isFree]

/-- Every run of `ActivateDevices` calls `IOMasterPort` once, as its first call. -/
theorem countP_isIOMasterPort_ActivateDevices (gVerbose : Int) (env : ScanEnv) :
    (ActivateDevices gVerbose env).2.countP isIOMasterPort = 1 := by
  have hdict : (makeDictionary env.dictionary kVendorID kProductID).2.countP isIOMasterPort =
      0 := by
    unfold makeDictionary
    split_ifs <;> rfl
  have hloop : ∀ (l : List (Nat × DeviceEnv)) (f : Int),
      (deviceLoop gVerbose env.iterator l f).2.countP isIOMasterPort = 0 := by
    intro l
    induction l with
    | nil => intro _; rfl
    | cons hd tl ih =>
      intro f
      obtain ⟨r, e⟩ := hd
      have hsession : (dealWithDevice gVerbose r e).countP isIOMasterPort = 0 := by
        rw [List.countP_eq_zero]
        intro x hx
        have hc := isSessionCall_dealWithDevice gVerbose r e x hx
        cases x <;> simp_all [isSessionCall, isOpenLoopCall, isOpenedDeviceCall,
          isInterfaceCall, isIOMasterPort]
      simp only [deviceLoop, List.countP_append, hsession, ih 1]
      split_ifs <;> rfl
  simp only [ActivateDevices]
  split_ifs <;> simp [List.countP_append, List.countP_cons, hdict, hloop, isIOMasterPort]

/-- C12: `powerCallback` answers a can-system-sleep or system-will-sleep message
with the single call `IOAllowPowerChange` carrying the message argument; it
answers a system-has-powered-on message with, at most after a verbose diagnostic,
a one-second wait followed by one run of `ActivateDevices`, and no
`IOAllowPowerChange`; it makes no call for any other message type. -/
theorem powerCallback_cases (gVerbose : Int) (rootPort msgType msgArgument : Nat)
    (scan : ScanEnv) :
    ((msgType = kIOMessageCanSystemSleep ∨ msgType = kIOMessageSystemWillSleep) →
      powerCallback gVerbose rootPort msgType msgArgument scan =
        [Event.IOAllowPowerChange rootPort msgArgument]) ∧
    (msgType = kIOMessageSystemHasPoweredOn →
      ((∃ d : List Event, (∀ e ∈ d, isDiagnostic e = true) ∧
          powerCallback gVerbose rootPort msgType msgArgument scan =
            d ++ [Event.sleep 1] ++ (ActivateDevices gVerbose scan).2) ∧
       (powerCallback gVerbose rootPort msgType msgArgument scan).countP isIOMasterPort = 1 ∧
       (powerCallback gVerbose rootPort msgType msgArgument scan).countP
         isIOAllowPowerChange = 0)) ∧
    ((msgType ≠ kIOMessageCanSystemSleep ∧ msgType ≠ kIOMessageSystemWillSleep ∧
        msgType ≠ kIOMessageSystemHasPoweredOn) →
      powerCallback gVerbose rootPort msgType msgArgument scan = []) := by
  have hscan := countP_isIOMasterPort_ActivateDevices gVerbose scan
  have hack := countP_ActivateDevices isIOAllowPowerChange
    not_isIOAllowPowerChange_of_isScanCall gVerbose scan
  refine ⟨?_, ?_, ?_⟩
  · intro h
    have hne : msgType ≠ kIOMessageSystemHasPoweredOn := by
      rcases h with h | h <;> rw [h] <;> decide
    simp [powerCallback, hne, h]
  · intro h
    refine ⟨⟨if gVerbose ≠ 0 then
        [Event.fprintf_stderr "Waking from sleep, re-activating any CM6206 devices...\n" []]
        else [], ?_, ?_⟩, ?_, ?_⟩
    · intro e he
      split_ifs at he <;> simp_all [isDiagnostic]
    · simp [powerCallback, h]
    · simp only [powerCallback, h, if_true, List.countP_append, hscan]
      split_ifs <;> rfl
    · simp only [powerCallback, h, if_true, List.countP_append, hack]
      split_ifs <;> rfl
  · intro h
    simp [powerCallback, h.1, h.2.1, h.2.2]

/-! ## Device notifications -/

theorem isAddedCall_DeviceAdded (gVerbose : Int) (gNotifyPort iterator : Nat)
    (batch : List (Nat × AddedEnv)) :
    ∀ e ∈ (DeviceAdded gVerbose gNotifyPort iterator batch).2, isAddedCall e = true := by
  induction batch with
  | nil =>
    intro e he
    simp only [DeviceAdded, List.mem_singleton] at he
    subst he
    rfl
  | cons hd tl ih =>
    obtain ⟨r, env⟩ := hd
    have hsession : (dealWithDevice gVerbose r env.session).all isAddedCall = true := by
      rw [List.all_eq_true]
      intro e he
      simp [isAddedCall, isSessionCall_dealWithDevice gVerbose r env.session e he]
    have hrest : (DeviceAdded gVerbose gNotifyPort iterator tl).2.all isAddedCall = true :=
      List.all_eq_true.mpr ih
    rw [← List.all_eq_true]
    simp only [DeviceAdded]
    split_ifs <;>
      simp [List.all_append, hsession, hrest, isAddedCall, isSessionCall, isOpenLoopCall,
        isOpenedDeviceCall, isInterfaceCall]

theorem isMainCall_flagLoop (progName : String) (args : List String) :
    ∀ (bDaemon gVerbose : Int) (e : Event),
      e ∈ (flagLoop progName args bDaemon gVerbose).2 → isMainCall e = true := by
  induction args with
  | nil =>
    intro _ _ e he
    simp [flagLoop] at he
  | cons arg rest ih =>
    intro bDaemon gVerbose e he
    simp only [flagLoop] at he
    split_ifs at he
    · exact ih 1 0 e he
    · exact ih bDaemon 1 e he
    · exact ih bDaemon 0 e he
    · simp only [List.mem_singleton] at he
      subst he
      rfl
    · simp only [printUsage, List.mem_cons, List.mem_singleton, List.not_mem_nil,
        or_false] at he
      rcases he with he | he | he | he | he | he | he <;> subst he <;> rfl
    · simp only [List.mem_cons] at he
      rcases he with he | he
      · subst he
        rfl
      · exact ih bDaemon gVerbose e he

theorem isMainCall_main_daemon (gVerbose : Int) (env : MainEnv) :
    ∀ e ∈ (main_daemon gVerbose env).2, isMainCall e = true := by
  have hdict : (makeDictionary env.dictionary kVendorID kProductID).2.all isMainCall = true := by
    rw [List.all_eq_true]
    intro e he
    simp [isMainCall, isScanCall_makeDictionary _ _ _ e he]
  have hadded : (DeviceAdded gVerbose env.gNotifyPort env.gAddedIter env.added).2.all
      isMainCall = true := by
    rw [List.all_eq_true]
    intro e he
    simp [isMainCall, isAddedCall_DeviceAdded _ _ _ _ e he]
  rw [← List.all_eq_true]
  simp only [main_daemon]
  split_ifs <;>
    simp [List.all_append, hdict, hadded, isMainCall, isScanCall, isAddedCall, isSessionCall,
      isOpenLoopCall, isOpenedDeviceCall, isInterfaceCall]

theorem isMainCall_main (progName : String) (args : List String) (env : MainEnv) :
    ∀ e ∈ (main progName args env).2, isMainCall e = true := by
  have hflags : (flagLoop progName args 0 1).2.all isMainCall = true :=
    List.all_eq_true.mpr (isMainCall_flagLoop progName args 0 1)
  rw [← List.all_eq_true]
  cases hf : (flagLoop progName args 0 1).1 with
  | exit code =>
    simp only [main, hf]
    exact hflags
  | proceed bDaemon gVerbose =>
    have hdaemon : (main_daemon gVerbose env).2.all isMainCall = true :=
      List.all_eq_true.mpr (isMainCall_main_daemon gVerbose env)
    have hscan : (ActivateDevices gVerbose env.scan).2.all isMainCall = true := by
      rw [List.all_eq_true]
      intro e he
      simp [isMainCall, isScanCall_ActivateDevices _ _ e he]
    simp only [main, hf]
    split_ifs <;>
      simp [List.all_append, hflags, hdaemon, hscan, isMainCall, isScanCall, isAddedCall,
        isSessionCall, isOpenLoopCall, isOpenedDeviceCall, isInterfaceCall]

theorem not_isFree_of_isMainCall (e : Event) (h : isMainCall e = true) :
    isFree e = false := by
  cases e <;> simp_all [isMainCall, isAddedCall, isScanCall, isSessionCall, isOpenLoopCall,
    isOpenedDeviceCall, isInterfaceCall, isFree]

theorem countP_isFree_main (progName : String) (args : List String) (env : MainEnv) :
    (main progName args env).2.countP isFree = 0 := by
  rw [List.countP_eq_zero]
  intro e he
  simp [not_isFree_of_isMainCall e (isMainCall_main progName args env e he)]

theorem countP_isFree_DeviceAdded (gVerbose : Int) (gNotifyPort iterator : Nat)
    (batch : List (Nat × AddedEnv)) :
    (DeviceAdded gVerbose gNotifyPort iterator batch).2.countP isFree = 0 := by
  rw [List.countP_eq_zero]
  intro e he
  have h := isAddedCall_DeviceAdded gVerbose gNotifyPort iterator batch e he
  have h2 : isMainCall e = true := by simp [isMainCall, h]
  simp [not_isFree_of_isMainCall e h2]

theorem countP_isFree_powerCallback (gVerbose : Int) (rootPort msgType msgArgument : Nat)
    (scan : ScanEnv) :
    (powerCallback gVerbose rootPort msgType msgArgument scan).countP isFree = 0 := by
  have hscan := countP_ActivateDevices isFree not_isFree_of_isScanCall gVerbose scan
  simp only [powerCallback]
  split_ifs <;> simp [List.countP_append, List.countP_cons, hscan, isFree]

/-- C13: on a service-is-terminated message `DeviceNotification` releases the
record's name once, releases the retained device handle once when it is non-null
and not at all when it is null, releases the notification registration once and
frees the record once, in this order, and the record is gone afterwards; on every
other message it makes no call and leaves the record as it was; and neither
`DeviceAdded`, nor `powerCallback`, nor `main` ever calls `free`. -/
theorem DeviceNotification_cases (gVerbose : Int) (privateDataRef : Nat)
    (record : MyPrivateData) (messageType : Nat)
    (gNotifyPort iterator : Nat) (batch : List (Nat × AddedEnv))
    (rootPort msgType msgArgument : Nat) (scan : ScanEnv)
    (progName : String) (args : List String) (env : MainEnv) :
    (messageType = kIOMessageServiceIsTerminated →
      ((DeviceNotification gVerbose privateDataRef record messageType).1 = none ∧
       (∃ d : List Event,
          (∀ e ∈ d, isDiagnostic e = true ∨ e = Event.CFShow record.deviceName) ∧
          (DeviceNotification gVerbose privateDataRef record messageType).2 =
            d ++ [Event.CFRelease record.deviceName] ++
            (if record.deviceInterface ≠ 0 then [Event.DeviceRelease record.deviceInterface]
             else []) ++
            [Event.IOObjectRelease record.notification, Event.free privateDataRef]) ∧
       (DeviceNotification gVerbose privateDataRef record messageType).2.countP isCFRelease
         = 1 ∧
       (DeviceNotification gVerbose privateDataRef record messageType).2.countP
         isDeviceRelease = (if record.deviceInterface ≠ 0 then 1 else 0) ∧
       (DeviceNotification gVerbose privateDataRef record messageType).2.countP
         isIOObjectRelease = 1 ∧
       (DeviceNotification gVerbose privateDataRef record messageType).2.countP isFree
         = 1)) ∧
    (messageType ≠ kIOMessageServiceIsTerminated →
      DeviceNotification gVerbose privateDataRef record messageType = (some record, [])) ∧
    (DeviceAdded gVerbose gNotifyPort iterator batch).2.countP isFree = 0 ∧
    (powerCallback gVerbose rootPort msgType msgArgument scan).countP isFree = 0 ∧
    (main progName args env).2.countP isFree = 0 := by
  refine ⟨?_, ?_, countP_isFree_DeviceAdded _ _ _ _, countP_isFree_powerCallback _ _ _ _ _,
    countP_isFree_main _ _ _⟩
  · intro h
    refine ⟨?_, ⟨if gVerbose ≠ 0 then
        [Event.fprintf_stderr "CM6206 device removed.\n" [],
         Event.fprintf_stderr "privateDataRef->deviceName: " [],
         Event.CFShow record.deviceName]
        else [], ?_, ?_⟩, ?_, ?_, ?_, ?_⟩
    · simp [DeviceNotification, h]
    · intro e he
      split_ifs at he
      · simp only [List.mem_cons, List.mem_singleton, List.not_mem_nil, or_false] at he
        rcases he with he | he | he
        · left; subst he; rfl
        · left; subst he; rfl
        · right; exact he
      · simp at he
    · simp [DeviceNotification, h]
    · simp only [DeviceNotification, h, if_true]
      split_ifs <;> rfl
    · simp only [DeviceNotification, h, if_true]
      split_ifs <;> rfl
    · simp only [DeviceNotification, h, if_true]
      split_ifs <;> rfl
    · simp only [DeviceNotification, h, if_true]
      split_ifs <;> rfl
  · intro h
    simp [DeviceNotification, h]

/-- The device-added loop in closed form. -/
theorem DeviceAdded_eq_flatMap (gVerbose : Int) (gNotifyPort iterator : Nat)
    (batch : List (Nat × AddedEnv)) :
    (DeviceAdded gVerbose gNotifyPort iterator batch).2 =
      batch.flatMap (addedPass gVerbose gNotifyPort iterator) ++
      [Event.IOIteratorNext iterator 0] := by
  induction batch with
  | nil => rfl
  | cons hd tl ih =>
    obtain ⟨r, env⟩ := hd
    simp only [DeviceAdded, List.flatMap_cons, addedPass, recordSetup, ih, List.append_assoc]

theorem DeviceAdded_records (gVerbose : Int) (gNotifyPort iterator : Nat)
    (batch : List (Nat × AddedEnv)) :
    (DeviceAdded gVerbose gNotifyPort iterator batch).1 =
      batch.map (fun x =>
        (x.2.privateDataRef, (⟨x.2.notification, 0, x.2.deviceNameAsCFString⟩ : MyPrivateData))) := by
  induction batch with
  | nil => rfl
  | cons hd tl ih =>
    obtain ⟨r, env⟩ := hd
    simp only [DeviceAdded, ih, List.map_cons]

theorem recordSetup_counts (gVerbose : Int) (iterator : Nat) (x : Nat × AddedEnv) :
    (recordSetup gVerbose iterator x).countP isMalloc = 1 ∧
    sessionStarts (recordSetup gVerbose iterator x) = [] ∧
    (recordSetup gVerbose iterator x).countP isSleep = 0 := by
  simp only [recordSetup]
  split_ifs <;> exact ⟨rfl, rfl, rfl⟩

theorem countP_isMalloc_dealWithDevice (gVerbose : Int) (usbDeviceRef : Nat) (env : DeviceEnv) :
    (dealWithDevice gVerbose usbDeviceRef env).countP isMalloc = 0 := by
  rw [List.countP_eq_zero]
  intro e he
  have hc := isSessionCall_dealWithDevice gVerbose usbDeviceRef env e he
  cases e <;> simp_all [isSessionCall, isOpenLoopCall, isOpenedDeviceCall, isInterfaceCall,
    isMalloc]

theorem countP_isMalloc_addedPass (gVerbose : Int) (gNotifyPort iterator : Nat)
    (x : Nat × AddedEnv) :
    (addedPass gVerbose gNotifyPort iterator x).countP isMalloc = 1 := by
  have h1 := (recordSetup_counts gVerbose iterator x).1
  have h2 := countP_isMalloc_dealWithDevice gVerbose x.1 x.2.session
  simp only [addedPass, List.countP_append, h1, h2]
  split_ifs <;> rfl

theorem sessionStarts_addedPass (gVerbose : Int) (gNotifyPort iterator : Nat)
    (x : Nat × AddedEnv) :
    sessionStarts (addedPass gVerbose gNotifyPort iterator x) = [x.1] := by
  have h1 := (recordSetup_counts gVerbose iterator x).2.1
  simp only [addedPass, sessionStarts_append, h1, sessionStarts_dealWithDevice]
  split_ifs <;> rfl

theorem countP_isMalloc_addedPasses (gVerbose : Int) (gNotifyPort iterator : Nat)
    (batch : List (Nat × AddedEnv)) :
    (batch.flatMap (addedPass gVerbose gNotifyPort iterator)).countP isMalloc =
      batch.length := by
  induction batch with
  | nil => rfl
  | cons hd tl ih =>
    rw [List.flatMap_cons, List.countP_append, countP_isMalloc_addedPass, ih,
      List.length_cons]
    omega

theorem sessionStarts_addedPasses (gVerbose : Int) (gNotifyPort iterator : Nat)
    (batch : List (Nat × AddedEnv)) :
    sessionStarts (batch.flatMap (addedPass gVerbose gNotifyPort iterator)) =
      batch.map Prod.fst := by
  induction batch with
  | nil => rfl
  | cons hd tl ih =>
    rw [List.flatMap_cons, sessionStarts_append, sessionStarts_addedPass, ih]
    rfl

/-- C14: the trace of `DeviceAdded` is, for each device of the batch in order, the
creation of its record (one `malloc`, the name string), the removal registration
with the record as context, the one-second wait, one whole run of
`dealWithDevice`, and the release of the reference; one record per device is
created, holding the name string, and `dealWithDevice` is started once per device,
in batch order. -/
theorem DeviceAdded_steps (gVerbose : Int) (gNotifyPort iterator : Nat)
    (batch : List (Nat × AddedEnv)) :
    (DeviceAdded gVerbose gNotifyPort iterator batch).2 =
      batch.flatMap (fun x =>
        recordSetup gVerbose iterator x ++
        [Event.IOServiceAddInterestNotification gNotifyPort x.1 x.2.privateDataRef] ++
        (if x.2.addInterestNotification ≠ 0 then
           [Event.fprintf_stderr "IOServiceAddInterestNotification returned 0x%08x.\n"
              [Arg.int x.2.addInterestNotification]]
         else []) ++
        [Event.sleep 1] ++
        dealWithDevice gVerbose x.1 x.2.session ++
        [Event.IOObjectRelease x.1]) ++
      [Event.IOIteratorNext iterator 0] ∧
    (∀ x : Nat × AddedEnv,
      (recordSetup gVerbose iterator x).countP isMalloc = 1 ∧
      sessionStarts (recordSetup gVerbose iterator x) = [] ∧
      (recordSetup gVerbose iterator x).countP isSleep = 0) ∧
    (DeviceAdded gVerbose gNotifyPort iterator batch).1 =
      batch.map (fun x =>
        (x.2.privateDataRef,
         (⟨x.2.notification, 0, x.2.deviceNameAsCFString⟩ : MyPrivateData))) ∧
    (DeviceAdded gVerbose gNotifyPort iterator batch).1.length = batch.length ∧
    (DeviceAdded gVerbose gNotifyPort iterator batch).2.countP isMalloc = batch.length ∧
    sessionStarts (DeviceAdded gVerbose gNotifyPort iterator batch).2 =
      batch.map Prod.fst := by
  have hrec := DeviceAdded_records gVerbose gNotifyPort iterator batch
  have hflat := DeviceAdded_eq_flatMap gVerbose gNotifyPort iterator batch
  refine ⟨hflat, recordSetup_counts gVerbose iterator, hrec, ?_, ?_, ?_⟩
  · rw [hrec, List.length_map]
  · rw [hflat, List.countP_append, countP_isMalloc_addedPasses]
    rfl
  · rw [hflat, sessionStarts_append, sessionStarts_addedPasses]
    exact List.append_nil _

/-! ## End to end: one device with three interfaces -/

theorem initCM6206_of_success (gVerbose : Int) (intf : Nat) :
    initCM6206 gVerbose intf 0 0 0 =
      (0,
       [Event.ControlRequest intf 0 (registerWriteRequest 0x00 0x00 0x00),
        Event.ControlRequest intf 0 (registerWriteRequest 0x00 0x30 0x01),
        Event.ControlRequest intf 0 (registerWriteRequest 0x04 0x80 0x02)] ++
       (if gVerbose ≠ 0 then [successMessage] else [])) := by
  simp [initCM6206, writeCM6206Registers, CheckError, registerWriteRequest,
    USBmakebmRequestType_value, successMessage, kIOUSBPipeStalled]

theorem dealWithInterface_of_succeeds (gVerbose : Int) (usbInterfaceRef : Nat)
    (env : InterfaceEnv) (h : interfaceSucceeds env) :
    dealWithInterface gVerbose usbInterfaceRef env =
      [Event.IOCreatePlugInInterfaceForService usbInterfaceRef
         PlugInType.kIOUSBInterfaceUserClientTypeID,
       Event.QueryInterface env.iodev InterfaceID.kIOUSBInterfaceInterfaceID183,
       Event.PlugInRelease env.iodev,
       Event.USBInterfaceOpen env.intf,
       Event.ControlRequest env.intf 0 (registerWriteRequest 0x00 0x00 0x00),
       Event.ControlRequest env.intf 0 (registerWriteRequest 0x00 0x30 0x01),
       Event.ControlRequest env.intf 0 (registerWriteRequest 0x04 0x80 0x02)] ++
      (if gVerbose ≠ 0 then [successMessage] else []) ++
      [Event.USBInterfaceClose env.intf, Event.InterfaceRelease env.intf] := by
  obtain ⟨⟨hc, hi⟩, ⟨hq, hn⟩, ho, h1, h2, h3, hcl, hr⟩ := h
  simp [dealWithInterface, dealWithInterface_opened, hc, hi, hq, hn, ho, h1, h2, h3, hcl, hr,
    initCM6206_of_success]

theorem dealWithDevice_of_succeeds (gVerbose : Int) (usbDeviceRef : Nat) (env : DeviceEnv)
    (r0 r1 r2 : Nat) (e0 e1 e2 : InterfaceEnv)
    (h : deviceSucceeds env) (hintfs : env.interfaces = [(r0, e0), (r1, e1), (r2, e2)]) :
    dealWithDevice gVerbose usbDeviceRef env =
      [Event.IOCreatePlugInInterfaceForService usbDeviceRef
         PlugInType.kIOUSBDeviceUserClientTypeID,
       Event.QueryInterface env.iodev InterfaceID.kIOUSBDeviceInterfaceID197,
       Event.PlugInRelease env.iodev,
       Event.USBDeviceOpen env.dev,
       Event.GetNumberOfConfigurations env.dev,
       Event.GetConfigurationDescriptorPtr env.dev 0,
       Event.SetConfiguration env.dev (env.bConfigurationValue % 256),
       Event.CreateInterfaceIterator env.dev
         ⟨kIOUSBFindInterfaceDontCare, kIOUSBFindInterfaceDontCare,
          kIOUSBFindInterfaceDontCare, kIOUSBFindInterfaceDontCare⟩,
       Event.IOIteratorNext env.iterator r0,
       Event.IOObjectRelease r0,
       Event.IOIteratorNext env.iterator r1] ++
      dealWithInterface gVerbose r1 e1 ++
      [Event.IOObjectRelease r1,
       Event.IOIteratorNext env.iterator r2,
       Event.IOObjectRelease r2,
       Event.IOIteratorNext env.iterator 0,
       Event.IOObjectRelease env.iterator,
       Event.USBDeviceClose env.dev,
       Event.DeviceRelease env.dev] := by
  obtain ⟨⟨hc, hi⟩, ⟨hq, hn⟩, ho, ⟨hnum, hconf⟩, hdesc, hset, hiter, hcl, hr⟩ := h
  have hloop := openLoop_success env.dev env.usbDeviceOpen 0 20 ho
  simp [dealWithDevice, dealWithDevice_opened, dealWithDevice_enumerate, interfaceLoop, hc, hi,
    hq, hn, hloop, hnum, hconf, hdesc, hset, hiter, hcl, hr, hintfs]

theorem goodDevice_succeeds : deviceSucceeds goodDevice := by
  refine ⟨by decide, by decide, rfl, by decide, by decide, by decide, by decide, by decide,
    by decide⟩

/-- The whole trace of a scan that finds one device with three interfaces when
every call succeeds. -/
theorem ActivateDevices_of_succeeds (gVerbose : Int) (env : ScanEnv)
    (d : Nat) (denv : DeviceEnv) (r0 r1 r2 : Nat) (e0 e1 e2 : InterfaceEnv)
    (hscan : scanSucceeds env) (hdevices : env.devices = [(d, denv)])
    (hdev : deviceSucceeds denv)
    (hintfs : denv.interfaces = [(r0, e0), (r1, e1), (r2, e2)])
    (hintf : interfaceSucceeds e1) :
    (ActivateDevices gVerbose env).2 =
      [Event.IOMasterPort,
       Event.IOServiceMatching,
       Event.CFNumberCreate kVendorID,
       Event.CFDictionaryAddValue env.dictionary.matchingDictionary "idVendor"
         env.dictionary.vendorNumber,
       Event.CFRelease env.dictionary.vendorNumber,
       Event.CFNumberCreate kProductID,
       Event.CFDictionaryAddValue env.dictionary.matchingDictionary "idProduct"
         env.dictionary.productNumber,
       Event.CFRelease env.dictionary.productNumber,
       Event.IOServiceGetMatchingServices env.masterPort env.dictionary.matchingDictionary,
       Event.IOIteratorNext env.iterator d] ++
      (if gVerbose ≠ 0 then
         [Event.fprintf_stderr "CM6206 found (device %p)\n" [Arg.ptr d]]
       else []) ++
      [Event.IOCreatePlugInInterfaceForService d PlugInType.kIOUSBDeviceUserClientTypeID,
       Event.QueryInterface denv.iodev InterfaceID.kIOUSBDeviceInterfaceID197,
       Event.PlugInRelease denv.iodev,
       Event.USBDeviceOpen denv.dev,
       Event.GetNumberOfConfigurations denv.dev,
       Event.GetConfigurationDescriptorPtr denv.dev 0,
       Event.SetConfiguration denv.dev (denv.bConfigurationValue % 256),
       Event.CreateInterfaceIterator denv.dev
         ⟨kIOUSBFindInterfaceDontCare, kIOUSBFindInterfaceDontCare,
          kIOUSBFindInterfaceDontCare, kIOUSBFindInterfaceDontCare⟩,
       Event.IOIteratorNext denv.iterator r0,
       Event.IOObjectRelease r0,
       Event.IOIteratorNext denv.iterator r1,
       Event.IOCreatePlugInInterfaceForService r1 PlugInType.kIOUSBInterfaceUserClientTypeID,
       Event.QueryInterface e1.iodev InterfaceID.kIOUSBInterfaceInterfaceID183,
       Event.PlugInRelease e1.iodev,
       Event.USBInterfaceOpen e1.intf,
       Event.ControlRequest e1.intf 0 (registerWriteRequest 0x00 0x00 0x00),
       Event.ControlRequest e1.intf 0 (registerWriteRequest 0x00 0x30 0x01),
       Event.ControlRequest e1.intf 0 (registerWriteRequest 0x04 0x80 0x02)] ++
      (if gVerbose ≠ 0 then [successMessage] else []) ++
      [Event.USBInterfaceClose e1.intf,
       Event.InterfaceRelease e1.intf,
       Event.IOObjectRelease r1,
       Event.IOIteratorNext denv.iterator r2,
       Event.IOObjectRelease r2,
       Event.IOIteratorNext denv.iterator 0,
       Event.IOObjectRelease denv.iterator,
       Event.USBDeviceClose denv.dev,
       Event.DeviceRelease denv.dev,
       Event.IOObjectRelease d,
       Event.IOIteratorNext env.iterator 0,
       Event.IOObjectRelease env.iterator,
       Event.mach_port_deallocate env.masterPort] := by
  have hsession := dealWithDevice_of_succeeds gVerbose d denv r0 r1 r2 e0 e1 e2 hdev hintfs
  have hclaim := dealWithInterface_of_succeeds gVerbose r1 e1 hintf
  obtain ⟨hport, ⟨hm, hv, hp⟩, _⟩ := hscan
  simp only [ActivateDevices, makeDictionary, deviceLoop, hport, hm, hv, hp, hdevices,
    hsession, hclaim, ne_eq, not_true_eq_false, if_false, List.append_assoc,
    List.cons_append, List.nil_append, List.singleton_append]
  by_cases hg : gVerbose = 0 <;> simp [hg]

/-- C15, amended: with every call succeeding and one matching device with three
interfaces, the trace of `ActivateDevices` is exactly the one written out below.
Its calls on the device and interface objects are, in order: open the device
(once), read the configuration count, fetch configuration descriptor 0, set the
configuration, create the interface iterator, open the interface at position 1,
the three control requests with payloads `[0x20,0x00,0x00,0x00]`,
`[0x20,0x00,0x30,0x01]`, `[0x20,0x04,0x80,0x02]`, close that interface and release
its object, close the device, release the device.  The interface loop lies between
the creation of the iterator and the close of the device, and within it the
reference at position 0 is released first, before the interface at position 1 is
opened, and the references at positions 1 and 2 are released, in this order, after
that interface has been closed.  `initCM6206` ends with `err = 0`; the only
interface opened is the second, and `dealWithInterface` is started on it alone. -/
theorem ActivateDevices_one_good_device (gVerbose : Int) (env : ScanEnv)
    (d : Nat) (denv : DeviceEnv) (r0 r1 r2 : Nat) (e0 e1 e2 : InterfaceEnv)
    (hscan : scanSucceeds env) (hdevices : env.devices = [(d, denv)])
    (hdev : deviceSucceeds denv)
    (hintfs : denv.interfaces = [(r0, e0), (r1, e1), (r2, e2)])
    (hintf : interfaceSucceeds e1) :
    (ActivateDevices gVerbose env).2 =
      [Event.IOMasterPort,
       Event.IOServiceMatching,
       Event.CFNumberCreate kVendorID,
       Event.CFDictionaryAddValue env.dictionary.matchingDictionary "idVendor"
         env.dictionary.vendorNumber,
       Event.CFRelease env.dictionary.vendorNumber,
       Event.CFNumberCreate kProductID,
       Event.CFDictionaryAddValue env.dictionary.matchingDictionary "idProduct"
         env.dictionary.productNumber,
       Event.CFRelease env.dictionary.productNumber,
       Event.IOServiceGetMatchingServices env.masterPort env.dictionary.matchingDictionary,
       Event.IOIteratorNext env.iterator d] ++
      (if gVerbose ≠ 0 then
         [Event.fprintf_stderr "CM6206 found (device %p)\n" [Arg.ptr d]]
       else []) ++
      [Event.IOCreatePlugInInterfaceForService d PlugInType.kIOUSBDeviceUserClientTypeID,
       Event.QueryInterface denv.iodev InterfaceID.kIOUSBDeviceInterfaceID197,
       Event.PlugInRelease denv.iodev,
       Event.USBDeviceOpen denv.dev,
       Event.GetNumberOfConfigurations denv.dev,
       Event.GetConfigurationDescriptorPtr denv.dev 0,
       Event.SetConfiguration denv.dev (denv.bConfigurationValue % 256),
       Event.CreateInterfaceIterator denv.dev
         ⟨kIOUSBFindInterfaceDontCare, kIOUSBFindInterfaceDontCare,
          kIOUSBFindInterfaceDontCare, kIOUSBFindInterfaceDontCare⟩,
       Event.IOIteratorNext denv.iterator r0,
       Event.IOObjectRelease r0,
       Event.IOIteratorNext denv.iterator r1,
       Event.IOCreatePlugInInterfaceForService r1 PlugInType.kIOUSBInterfaceUserClientTypeID,
       Event.QueryInterface e1.iodev InterfaceID.kIOUSBInterfaceInterfaceID183,
       Event.PlugInRelease e1.iodev,
       Event.USBInterfaceOpen e1.intf,
       Event.ControlRequest e1.intf 0 (registerWriteRequest 0x00 0x00 0x00),
       Event.ControlRequest e1.intf 0 (registerWriteRequest 0x00 0x30 0x01),
       Event.ControlRequest e1.intf 0 (registerWriteRequest 0x04 0x80 0x02)] ++
      (if gVerbose ≠ 0 then [successMessage] else []) ++
      [Event.USBInterfaceClose e1.intf,
       Event.InterfaceRelease e1.intf,
       Event.IOObjectRelease r1,
       Event.IOIteratorNext denv.iterator r2,
       Event.IOObjectRelease r2,
       Event.IOIteratorNext denv.iterator 0,
       Event.IOObjectRelease denv.iterator,
       Event.USBDeviceClose denv.dev,
       Event.DeviceRelease denv.dev,
       Event.IOObjectRelease d,
       Event.IOIteratorNext env.iterator 0,
       Event.IOObjectRelease env.iterator,
       Event.mach_port_deallocate env.masterPort] ∧
    (ActivateDevices gVerbose env).2.filter isDeviceFacing =
      [Event.USBDeviceOpen denv.dev,
       Event.GetNumberOfConfigurations denv.dev,
       Event.GetConfigurationDescriptorPtr denv.dev 0,
       Event.SetConfiguration denv.dev (denv.bConfigurationValue % 256),
       Event.CreateInterfaceIterator denv.dev
         ⟨kIOUSBFindInterfaceDontCare, kIOUSBFindInterfaceDontCare,
          kIOUSBFindInterfaceDontCare, kIOUSBFindInterfaceDontCare⟩,
       Event.USBInterfaceOpen e1.intf,
       Event.ControlRequest e1.intf 0 (registerWriteRequest 0x00 0x00 0x00),
       Event.ControlRequest e1.intf 0 (registerWriteRequest 0x00 0x30 0x01),
       Event.ControlRequest e1.intf 0 (registerWriteRequest 0x04 0x80 0x02),
       Event.USBInterfaceClose e1.intf,
       Event.InterfaceRelease e1.intf,
       Event.USBDeviceClose denv.dev,
       Event.DeviceRelease denv.dev] ∧
    objectReleases (interfaceLoop gVerbose denv.iterator denv.interfaces 0) = [r0, r1, r2] ∧
    (initCM6206 gVerbose e1.intf e1.xfer1 e1.xfer2 e1.xfer3).1 = 0 ∧
    (ActivateDevices gVerbose env).2.filter isUSBInterfaceOpen =
      [Event.USBInterfaceOpen e1.intf] ∧
    (ActivateDevices gVerbose env).2.countP isUSBInterfaceOpenSeize = 0 ∧
    claimerCalls (ActivateDevices gVerbose env).2 = [r1] ∧
    (∃ pre post : List Event,
      (ActivateDevices gVerbose env).2 =
        pre ++ interfaceLoop gVerbose denv.iterator denv.interfaces 0 ++ post ∧
      pre.filter isSessionAction =
        [Event.USBDeviceOpen denv.dev,
         Event.GetNumberOfConfigurations denv.dev,
         Event.GetConfigurationDescriptorPtr denv.dev 0,
         Event.SetConfiguration denv.dev (denv.bConfigurationValue % 256),
         Event.CreateInterfaceIterator denv.dev
           ⟨kIOUSBFindInterfaceDontCare, kIOUSBFindInterfaceDontCare,
            kIOUSBFindInterfaceDontCare, kIOUSBFindInterfaceDontCare⟩] ∧
      post.filter isDeviceFacing =
        [Event.USBDeviceClose denv.dev, Event.DeviceRelease denv.dev]) ∧
    (interfaceLoop gVerbose denv.iterator denv.interfaces 0).filter isSessionAction =
      [Event.IOObjectRelease r0,
       Event.USBInterfaceOpen e1.intf,
       Event.ControlRequest e1.intf 0 (registerWriteRequest 0x00 0x00 0x00),
       Event.ControlRequest e1.intf 0 (registerWriteRequest 0x00 0x30 0x01),
       Event.ControlRequest e1.intf 0 (registerWriteRequest 0x04 0x80 0x02),
       Event.USBInterfaceClose e1.intf,
       Event.InterfaceRelease e1.intf,
       Event.IOObjectRelease r1,
       Event.IOObjectRelease r2] := by
  have htrace := ActivateDevices_of_succeeds gVerbose env d denv r0 r1 r2 e0 e1 e2 hscan
    hdevices hdev hintfs hintf
  have hclaim := dealWithInterface_of_succeeds gVerbose r1 e1 hintf
  have hloop : interfaceLoop gVerbose denv.iterator denv.interfaces 0 =
      [Event.IOIteratorNext denv.iterator r0,
       Event.IOObjectRelease r0,
       Event.IOIteratorNext denv.iterator r1,
       Event.IOCreatePlugInInterfaceForService r1 PlugInType.kIOUSBInterfaceUserClientTypeID,
       Event.QueryInterface e1.iodev InterfaceID.kIOUSBInterfaceInterfaceID183,
       Event.PlugInRelease e1.iodev,
       Event.USBInterfaceOpen e1.intf,
       Event.ControlRequest e1.intf 0 (registerWriteRequest 0x00 0x00 0x00),
       Event.ControlRequest e1.intf 0 (registerWriteRequest 0x00 0x30 0x01),
       Event.ControlRequest e1.intf 0 (registerWriteRequest 0x04 0x80 0x02)] ++
      (if gVerbose ≠ 0 then [successMessage] else []) ++
      [Event.USBInterfaceClose e1.intf,
       Event.InterfaceRelease e1.intf,
       Event.IOObjectRelease r1,
       Event.IOIteratorNext denv.iterator r2,
       Event.IOObjectRelease r2,
       Event.IOIteratorNext denv.iterator 0] := by
    rw [hintfs]
    simp [interfaceLoop, hclaim]
  refine ⟨htrace, ?_, ?_, ?_, ?_, ?_, ?_, ?_, ?_⟩
  · rw [htrace]
    by_cases hg : gVerbose = 0 <;> simp [hg, isDeviceFacing, successMessage]
  · rw [hintfs]
    simp only [interfaceLoop, objectReleases_append]
    norm_num [objectReleases_dealWithInterface]
    rfl
  · obtain ⟨_, _, _, h1, h2, h3, _, _⟩ := hintf
    rw [h1, h2, h3, initCM6206_of_success]
  · rw [htrace]
    by_cases hg : gVerbose = 0 <;> simp [hg, isUSBInterfaceOpen, successMessage]
  · rw [htrace]
    by_cases hg : gVerbose = 0 <;> simp [hg, isUSBInterfaceOpenSeize, successMessage]
  · rw [htrace]
    by_cases hg : gVerbose = 0 <;> simp [hg, claimerCalls, successMessage]
  · refine ⟨[Event.IOMasterPort,
       Event.IOServiceMatching,
       Event.CFNumberCreate kVendorID,
       Event.CFDictionaryAddValue env.dictionary.matchingDictionary "idVendor"
         env.dictionary.vendorNumber,
       Event.CFRelease env.dictionary.vendorNumber,
       Event.CFNumberCreate kProductID,
       Event.CFDictionaryAddValue env.dictionary.matchingDictionary "idProduct"
         env.dictionary.productNumber,
       Event.CFRelease env.dictionary.productNumber,
       Event.IOServiceGetMatchingServices env.masterPort env.dictionary.matchingDictionary,
       Event.IOIteratorNext env.iterator d] ++
      (if gVerbose ≠ 0 then
         [Event.fprintf_stderr "CM6206 found (device %p)\n" [Arg.ptr d]]
       else []) ++
      [Event.IOCreatePlugInInterfaceForService d PlugInType.kIOUSBDeviceUserClientTypeID,
       Event.QueryInterface denv.iodev InterfaceID.kIOUSBDeviceInterfaceID197,
       Event.PlugInRelease denv.iodev,
       Event.USBDeviceOpen denv.dev,
       Event.GetNumberOfConfigurations denv.dev,
       Event.GetConfigurationDescriptorPtr denv.dev 0,
       Event.SetConfiguration denv.dev (denv.bConfigurationValue % 256),
       Event.CreateInterfaceIterator denv.dev
         ⟨kIOUSBFindInterfaceDontCare, kIOUSBFindInterfaceDontCare,
          kIOUSBFindInterfaceDontCare, kIOUSBFindInterfaceDontCare⟩],
      [Event.IOObjectRelease denv.iterator,
       Event.USBDeviceClose denv.dev,
       Event.DeviceRelease denv.dev,
       Event.IOObjectRelease d,
       Event.IOIteratorNext env.iterator 0,
       Event.IOObjectRelease env.iterator,
       Event.mach_port_deallocate env.masterPort], ?_, ?_, ?_⟩
    · rw [htrace, hloop]
      by_cases hg : gVerbose = 0 <;> simp [hg]
    · by_cases hg : gVerbose = 0 <;>
        simp [hg, isSessionAction, isDeviceFacing, isIOObjectRelease]
    · simp [isDeviceFacing]
  · rw [hloop]
    by_cases hg : gVerbose = 0 <;>
      simp [hg, isSessionAction, isDeviceFacing, isIOObjectRelease, successMessage]

theorem oneDeviceScan_succeeds : scanSucceeds oneDeviceScan := by
  refine ⟨by decide, by decide, by decide⟩

theorem goodInterface_succeeds : interfaceSucceeds goodInterface := by
  refine ⟨by decide, by decide, by decide, by decide, by decide, by decide, by decide,
    by decide⟩

theorem ActivateDevices_one_good_device_witness :
    scanSucceeds oneDeviceScan ∧ oneDeviceScan.devices = [(7, goodDevice)] ∧
    deviceSucceeds goodDevice ∧
    goodDevice.interfaces = [(41, goodInterface), (42, goodInterface), (43, goodInterface)] ∧
    interfaceSucceeds goodInterface ∧
    objectReleases (interfaceLoop 1 goodDevice.iterator goodDevice.interfaces 0) =
      [41, 42, 43] ∧
    (initCM6206 1 goodInterface.intf goodInterface.xfer1 goodInterface.xfer2
      goodInterface.xfer3).1 = 0 ∧
    (ActivateDevices 1 oneDeviceScan).2.filter isUSBInterfaceOpen =
      [Event.USBInterfaceOpen goodInterface.intf] ∧
    claimerCalls (ActivateDevices 1 oneDeviceScan).2 = [42] ∧
    (interfaceLoop 1 goodDevice.iterator goodDevice.interfaces 0).filter isSessionAction =
      [Event.IOObjectRelease 41,
       Event.USBInterfaceOpen goodInterface.intf,
       Event.ControlRequest goodInterface.intf 0 (registerWriteRequest 0x00 0x00 0x00),
       Event.ControlRequest goodInterface.intf 0 (registerWriteRequest 0x00 0x30 0x01),
       Event.ControlRequest goodInterface.intf 0 (registerWriteRequest 0x04 0x80 0x02),
       Event.USBInterfaceClose goodInterface.intf,
       Event.InterfaceRelease goodInterface.intf,
       Event.IOObjectRelease 42,
       Event.IOObjectRelease 43] :=
  have h := ActivateDevices_one_good_device 1 oneDeviceScan 7 goodDevice 41 42 43
    goodInterface goodInterface goodInterface oneDeviceScan_succeeds rfl goodDevice_succeeds
    rfl goodInterface_succeeds
  ⟨oneDeviceScan_succeeds, rfl, goodDevice_succeeds, rfl, goodInterface_succeeds,
   h.2.2.1, h.2.2.2.1, h.2.2.2.2.1, h.2.2.2.2.2.2.1, h.2.2.2.2.2.2.2.2⟩

/-- C15, as stated, fails: in the scan of one device with three interfaces on
which every call succeeds, the listed actions do not occur in the listed order;
the reference of the interface at position 0 is released right after the iterator
has been created, before the interface at position 1 is opened, not after that
interface has been closed. -/
theorem scan_releases_first_reference_before_open :
    scanSucceeds oneDeviceScan ∧ oneDeviceScan.devices = [(7, goodDevice)] ∧
    deviceSucceeds goodDevice ∧
    goodDevice.interfaces = [(41, goodInterface), (42, goodInterface), (43, goodInterface)] ∧
    interfaceSucceeds goodInterface ∧
    (ActivateDevices 1 oneDeviceScan).2.filter (fun e => listedSequence.contains e) =
      [Event.USBDeviceOpen 22,
       Event.GetNumberOfConfigurations 22,
       Event.GetConfigurationDescriptorPtr 22 0,
       Event.SetConfiguration 22 1,
       Event.CreateInterfaceIterator 22
         ⟨kIOUSBFindInterfaceDontCare, kIOUSBFindInterfaceDontCare,
          kIOUSBFindInterfaceDontCare, kIOUSBFindInterfaceDontCare⟩,
       Event.IOObjectRelease 41,
       Event.USBInterfaceOpen 12,
       Event.ControlRequest 12 0 (registerWriteRequest 0x00 0x00 0x00),
       Event.ControlRequest 12 0 (registerWriteRequest 0x00 0x30 0x01),
       Event.ControlRequest 12 0 (registerWriteRequest 0x04 0x80 0x02),
       Event.USBInterfaceClose 12,
       Event.IOObjectRelease 42,
       Event.IOObjectRelease 43,
       Event.USBDeviceClose 22,
       Event.DeviceRelease 22] ∧
    (ActivateDevices 1 oneDeviceScan).2.filter (fun e => listedSequence.contains e) ≠
      listedSequence := by
  have htrace := ActivateDevices_of_succeeds 1 oneDeviceScan 7 goodDevice 41 42 43
    goodInterface goodInterface goodInterface oneDeviceScan_succeeds rfl goodDevice_succeeds
    rfl goodInterface_succeeds
  refine ⟨oneDeviceScan_succeeds, rfl, goodDevice_succeeds, rfl, goodInterface_succeeds,
    ?_, ?_⟩
  · rw [htrace]
    decide
  · rw [htrace]
    decide

/-! ## Command-line flags -/

theorem flagLoop_eq_reference (progName : String) (args : List String) :
    ∀ daemon verbose : Bool,
      (flagLoop progName args (flagInt daemon) (flagInt verbose)).1 =
        (flagReference args daemon verbose).1.toFlagsResult ∧
      (flagLoop progName args (flagInt daemon) (flagInt verbose)).2.filter isDiagnostic =
        (flagReference args daemon verbose).2.map unknownArgumentReport := by
  induction args with
  | nil =>
    intro daemon verbose
    exact ⟨rfl, rfl⟩
  | cons arg rest ih =>
    intro daemon verbose
    have ht : (1 : Int) = flagInt true := rfl
    have hf : (0 : Int) = flagInt false := rfl
    by_cases h1 : arg = "-d"
    · subst h1
      have := ih true false
      simpa [flagLoop, flagReference, ← ht, ← hf] using this
    · by_cases h2 : arg = "-v"
      · subst h2
        have := ih daemon true
        simpa [flagLoop, flagReference, ← ht] using this
      · by_cases h3 : arg = "-s"
        · subst h3
          have := ih daemon false
          simpa [flagLoop, flagReference, ← hf] using this
        · by_cases h4 : arg = "-V"
          · subst h4
            simp [flagLoop, flagReference, ReferenceResult.toFlagsResult, isDiagnostic]
          · by_cases h5 : arg = "-h"
            · subst h5
              simp [flagLoop, flagReference, ReferenceResult.toFlagsResult, isDiagnostic,
                printUsage]
            · have := ih daemon verbose
              simp [flagLoop, flagReference, h1, h2, h3, h4, h5, this.1, this.2, isDiagnostic,
                unknownArgumentReport]

theorem isOutput_flagLoop (progName : String) (args : List String) :
    ∀ (bDaemon gVerbose : Int) (e : Event),
      e ∈ (flagLoop progName args bDaemon gVerbose).2 → isOutput e = true := by
  induction args with
  | nil =>
    intro _ _ e he
    simp [flagLoop] at he
  | cons arg rest ih =>
    intro bDaemon gVerbose e he
    simp only [flagLoop] at he
    split_ifs at he
    · exact ih 1 0 e he
    · exact ih bDaemon 1 e he
    · exact ih bDaemon 0 e he
    · simp only [List.mem_singleton] at he
      subst he
      rfl
    · simp only [printUsage, List.mem_cons, List.mem_singleton, List.not_mem_nil,
        or_false] at he
      rcases he with he | he | he | he | he | he | he <;> subst he <;> rfl
    · simp only [List.mem_cons] at he
      rcases he with he | he
      · subst he
        rfl
      · exact ih bDaemon gVerbose e he

/-- Without `-V` and `-h` the flag loop runs to the end: the daemon flag is set
when `-d` occurs, and the verbosity is that of the last verbosity argument. -/
theorem flagLoop_of_no_exit (progName : String) (args : List String) :
    ∀ bDaemon gVerbose : Int, "-V" ∉ args → "-h" ∉ args →
      (flagLoop progName args bDaemon gVerbose).1 =
        FlagsResult.proceed (if "-d" ∈ args then 1 else bDaemon)
          (match lastVerbosityFlag args with
           | none => gVerbose
           | some a => if a = "-v" then 1 else 0) := by
  induction args with
  | nil =>
    intro _ _ _ _
    rfl
  | cons arg rest ih =>
    intro bDaemon gVerbose hV hh
    have hV1 : arg ≠ "-V" := fun h => hV (by simp [h])
    have hh1 : arg ≠ "-h" := fun h => hh (by simp [h])
    have hV2 : "-V" ∉ rest := fun h => hV (List.mem_cons_of_mem _ h)
    have hh2 : "-h" ∉ rest := fun h => hh (List.mem_cons_of_mem _ h)
    have hlast : lastVerbosityFlag (arg :: rest) =
        match lastVerbosityFlag rest with
        | some a => some a
        | none => if isVerbosityFlag arg then some arg else none := by
      simp only [lastVerbosityFlag, List.reverse_cons, List.find?_append]
      cases List.find? isVerbosityFlag rest.reverse with
      | none => simp [List.find?]; split <;> simp_all
      | some a => rfl
    rw [hlast]
    by_cases h1 : arg = "-d"
    · subst h1
      rw [flagLoop, if_pos rfl, ih 1 0 hV2 hh2]
      cases lastVerbosityFlag rest <;> simp [isVerbosityFlag]
    · by_cases h2 : arg = "-v"
      · subst h2
        rw [flagLoop, if_neg (by decide), if_pos rfl, ih bDaemon 1 hV2 hh2]
        cases lastVerbosityFlag rest <;> simp [isVerbosityFlag]
      · by_cases h3 : arg = "-s"
        · subst h3
          rw [flagLoop, if_neg (by decide), if_neg (by decide), if_pos rfl,
            ih bDaemon 0 hV2 hh2]
          cases lastVerbosityFlag rest <;> simp [isVerbosityFlag]
        · rw [flagLoop, if_neg h1, if_neg h2, if_neg h3, if_neg hV1, if_neg hh1]
          simp only []
          rw [ih bDaemon gVerbose hV2 hh2]
          have hmem : ("-d" ∈ arg :: rest) ↔ "-d" ∈ rest := by
            simp [List.mem_cons, Ne.symm h1]
          cases lastVerbosityFlag rest <;> simp [isVerbosityFlag, h1, h2, h3, hmem]

theorem flagLoop_filter_isRecognised (progName : String) (args : List String) :
    ∀ bDaemon gVerbose : Int,
      (flagLoop progName (args.filter isRecognised) bDaemon gVerbose).1 =
        (flagLoop progName args bDaemon gVerbose).1 := by
  induction args with
  | nil => intro _ _; rfl
  | cons arg rest ih =>
    intro bDaemon gVerbose
    by_cases h1 : arg = "-d"
    · subst h1
      simpa [flagLoop, isRecognised] using ih 1 0
    · by_cases h2 : arg = "-v"
      · subst h2
        simpa [flagLoop, isRecognised] using ih bDaemon 1
      · by_cases h3 : arg = "-s"
        · subst h3
          simpa [flagLoop, isRecognised] using ih bDaemon 0
        · by_cases h4 : arg = "-V"
          · subst h4
            simp [flagLoop, isRecognised]
          · by_cases h5 : arg = "-h"
            · subst h5
              simp [flagLoop, isRecognised]
            · simpa [flagLoop, isRecognised, h1, h2, h3, h4, h5] using ih bDaemon gVerbose

theorem main_of_exit (progName : String) (args : List String) (env : MainEnv) (code : Int)
    (h : (flagLoop progName args 0 1).1 = FlagsResult.exit code) :
    main progName args env = (MainResult.returned code, (flagLoop progName args 0 1).2) := by
  simp only [main, h]

theorem main_of_proceed (progName : String) (args : List String) (env : MainEnv)
    (bDaemon gVerbose : Int)
    (h : (flagLoop progName args 0 1).1 = FlagsResult.proceed bDaemon gVerbose) :
    main progName args env =
      if bDaemon ≠ 0 then
        ((main_daemon gVerbose env).1,
         (flagLoop progName args 0 1).2 ++
         ([Event.signal SIGINT] ++
          (if env.signalFails then
             [Event.fprintf_stderr "Could not establish new signal handler." []]
           else []) ++
          [Event.signal SIGHUP]) ++
         (main_daemon gVerbose env).2)
      else
        (MainResult.returned (ActivateDevices gVerbose env.scan).1,
         (flagLoop progName args 0 1).2 ++
         ([Event.signal SIGINT] ++
          (if env.signalFails then
             [Event.fprintf_stderr "Could not establish new signal handler." []]
           else []) ++
          [Event.signal SIGHUP]) ++
         (ActivateDevices gVerbose env.scan).2) := by
  simp only [main, h]

/-- C18: the flag loop of `main`, started with `bDaemon = 0` and `gVerbose = 1`,
ends as the reference scan started with daemon off and verbose on, and reports
exactly the arguments the reference reports; when the reference ends with exit
code 0, `main` returns 0 having written output only; without `-V` and `-h` the
loop ends with the daemon flag set exactly when `-d` occurs and with the verbosity
of the last among `-d`, `-s`, `-v` (verbose when there is none), `main` then
taking the daemon branch exactly when `-d` occurs; `-d -v` gives a verbose daemon
and `-v -d` a silent one; and dropping the unrecognised arguments leaves the end
of the loop unchanged. -/
theorem main_flag_loop (progName : String) (args : List String) (env : MainEnv) :
    (flagLoop progName args 0 1).1 = (flagReference args false true).1.toFlagsResult ∧
    (flagLoop progName args 0 1).2.filter isDiagnostic =
      (flagReference args false true).2.map unknownArgumentReport ∧
    ((flagReference args false true).1 = ReferenceResult.exit0 →
      (main progName args env = (MainResult.returned 0, (flagLoop progName args 0 1).2) ∧
       ∀ e ∈ (main progName args env).2, isOutput e = true)) ∧
    ("-V" ∉ args → "-h" ∉ args →
      ((flagLoop progName args 0 1).1 =
        FlagsResult.proceed (if "-d" ∈ args then 1 else 0)
          (match lastVerbosityFlag args with
           | none => 1
           | some a => if a = "-v" then 1 else 0) ∧
       ("-d" ∈ args →
          (main progName args env).1 =
            (main_daemon
              (match lastVerbosityFlag args with
               | none => 1
               | some a => if a = "-v" then 1 else 0) env).1) ∧
       ("-d" ∉ args →
          (main progName args env).1 =
            MainResult.returned
              (ActivateDevices
                (match lastVerbosityFlag args with
                 | none => 1
                 | some a => if a = "-v" then 1 else 0) env.scan).1))) ∧
    (flagLoop progName ["-d", "-v"] 0 1).1 = FlagsResult.proceed 1 1 ∧
    (flagLoop progName ["-v", "-d"] 0 1).1 = FlagsResult.proceed 1 0 ∧
    (flagLoop progName (args.filter isRecognised) 0 1).1 = (flagLoop progName args 0 1).1 := by
  have href := flagLoop_eq_reference progName args false true
  refine ⟨href.1, href.2, ?_, ?_, ?_, ?_, flagLoop_filter_isRecognised progName args 0 1⟩
  · intro h
    have hexit : (flagLoop progName args 0 1).1 = FlagsResult.exit 0 := by
      have h1 := href.1
      rw [h] at h1
      exact h1
    have hmain := main_of_exit progName args env 0 hexit
    refine ⟨hmain, ?_⟩
    rw [hmain]
    exact isOutput_flagLoop progName args 0 1
  · intro hV hh
    have hloop := flagLoop_of_no_exit progName args 0 1 hV hh
    refine ⟨hloop, ?_, ?_⟩
    · intro hd
      rw [if_pos hd] at hloop
      rw [main_of_proceed progName args env _ _ hloop]
      simp
    · intro hd
      rw [if_neg hd] at hloop
      rw [main_of_proceed progName args env _ _ hloop]
      simp
  · simp [flagLoop]
  · simp [flagLoop]

/-! ## Exit code -/

theorem makeDictionary_ret (env : DictionaryEnv) (idVendor idProduct : Int) :
    (makeDictionary env idVendor idProduct).1 =
      if env.matchingDictionary = 0 ∨ env.vendorNumber = 0 ∨ env.productNumber = 0 then -1
      else 0 := by
  unfold makeDictionary
  split_ifs <;> simp_all

theorem main_daemon_no_power (gVerbose : Int) (env : MainEnv)
    (hdict : (makeDictionary env.dictionary kVendorID kProductID).1 = 0)
    (hpower : env.rootPort = 0) :
    (main_daemon gVerbose env).1 = MainResult.returned (-1) := by
  simp [main_daemon, hdict, hpower]

/-- C19: in one-shot mode (the flag loop ends with `bDaemon = 0`) `main` returns
the value of `ActivateDevices`; that value is the non-zero status of `IOMasterPort`
when the master port is not obtained, -1 when the matching dictionary cannot be
built, and 0 otherwise, whatever is enumerated and whatever the sessions do; in
daemon mode `main` returns -1 when `IORegisterForSystemPower` returns 0.  The
samples: no argument and one good device returns 0, no argument and no master port
returns the port status, `-d` with the power registration failing returns -1. -/
theorem main_exit_code (progName : String) (args : List String) (env : MainEnv)
    (bDaemon gVerbose : Int) :
    ((flagLoop progName args 0 1).1 = FlagsResult.proceed 0 gVerbose →
      (main progName args env).1 =
        MainResult.returned (ActivateDevices gVerbose env.scan).1) ∧
    (env.scan.ioMasterPort ≠ 0 →
      ((ActivateDevices gVerbose env.scan).1 = env.scan.ioMasterPort ∧
       (ActivateDevices gVerbose env.scan).1 ≠ 0)) ∧
    ((env.scan.ioMasterPort = 0 ∧
        (env.scan.dictionary.matchingDictionary = 0 ∨ env.scan.dictionary.vendorNumber = 0 ∨
         env.scan.dictionary.productNumber = 0)) →
      ((ActivateDevices gVerbose env.scan).1 = -1 ∧
       (ActivateDevices gVerbose env.scan).1 ≠ 0)) ∧
    ((env.scan.ioMasterPort = 0 ∧ env.scan.dictionary.matchingDictionary ≠ 0 ∧
        env.scan.dictionary.vendorNumber ≠ 0 ∧ env.scan.dictionary.productNumber ≠ 0) →
      (ActivateDevices gVerbose env.scan).1 = 0) ∧
    (((flagLoop progName args 0 1).1 = FlagsResult.proceed bDaemon gVerbose ∧ bDaemon ≠ 0 ∧
        (makeDictionary env.dictionary kVendorID kProductID).1 = 0 ∧ env.rootPort = 0) →
      ((main progName args env).1 = MainResult.returned (-1) ∧ (-1 : Int) ≠ 0)) ∧
    (main progName [] goodMain).1 = MainResult.returned 0 ∧
    (main progName [] noPortMain).1 = MainResult.returned 0x10000003 ∧
    (main progName ["-d"] noPowerMain).1 = MainResult.returned (-1) := by
  have hret := ActivateDevices_ret gVerbose env.scan
  have hdict := makeDictionary_ret env.scan.dictionary kVendorID kProductID
  refine ⟨?_, ?_, ?_, ?_, ?_, ?_, ?_, ?_⟩
  · intro h
    rw [main_of_proceed progName args env 0 gVerbose h]
    simp
  · intro h
    rw [hret, if_pos h]
    exact ⟨rfl, h⟩
  · intro h
    rw [hret, hdict, if_neg (not_not.mpr h.1), if_pos h.2]
    exact ⟨rfl, by decide⟩
  · intro h
    rw [hret, hdict, if_neg (not_not.mpr h.1), if_neg (by tauto)]
  · intro h
    obtain ⟨h1, h2, h3, h4⟩ := h
    rw [main_of_proceed progName args env bDaemon gVerbose h1, if_pos h2]
    exact ⟨main_daemon_no_power gVerbose env h3 h4, by decide⟩
  · rw [main_of_proceed progName [] goodMain 0 1 rfl]
    simp only [ne_eq, not_true_eq_false, if_false, ActivateDevices_ret]
    decide
  · rw [main_of_proceed progName [] noPortMain 0 1 rfl]
    simp only [ne_eq, not_true_eq_false, if_false, ActivateDevices_ret]
    decide
  · rw [main_of_proceed progName ["-d"] noPowerMain 1 0 (by simp [flagLoop])]
    simp only [ne_eq, one_ne_zero, not_false_eq_true, if_true]
    exact main_daemon_no_power 0 noPowerMain (by decide) rfl

/-! ## Silent mode -/

theorem quiet_append (a b : List Event) : quiet (a ++ b) = quiet a ++ quiet b := by
  simp [quiet]

theorem quiet_eq_self (t : List Event) (h : ∀ e ∈ t, isInformational e = false) :
    quiet t = t := by
  rw [quiet, List.filter_eq_self]
  intro e he
  simp [h e he]

theorem quiet_writeCM6206Registers (intf byte1 byte2 regNo : Nat) (status : IOReturn) :
    quiet (writeCM6206Registers intf byte1 byte2 regNo status).2 =
      (writeCM6206Registers intf byte1 byte2 regNo status).2 := by
  simp only [writeCM6206Registers, CheckError, ShowError]
  split_ifs <;> rfl

theorem quiet_nil : quiet [] = [] := rfl

theorem quiet_cons (e : Event) (t : List Event) :
    quiet (e :: t) = if isInformational e then quiet t else e :: quiet t := by
  simp only [quiet, List.filter_cons]
  cases isInformational e <;> rfl

theorem quiet_initCM6206 (gVerbose : Int) (intf : Nat) (s1 s2 s3 : IOReturn) :
    quiet (initCM6206 gVerbose intf s1 s2 s3).2 = (initCM6206 0 intf s1 s2 s3).2 := by
  simp only [initCM6206, quiet_append, quiet_writeCM6206Registers]
  by_cases h1 : s1 = 0 <;> by_cases h2 : s2 = 0 <;> by_cases h3 : s3 = 0 <;>
    by_cases hg : gVerbose = 0 <;>
    simp [h1, h2, h3, hg, writeCM6206Registers_ret, quiet_cons, quiet_nil, isInformational,
      informationalFormats]

theorem quiet_dealWithInterface_opened (gVerbose : Int) (env : InterfaceEnv) :
    quiet (dealWithInterface_opened gVerbose env) = dealWithInterface_opened 0 env := by
  simp only [dealWithInterface_opened, quiet_append, quiet_initCM6206]
  by_cases hc : env.usbInterfaceClose = 0 <;> by_cases hr : env.release = 0 <;>
    simp [hc, hr, quiet_cons, quiet_nil, isInformational, informationalFormats]

theorem quiet_dealWithInterface (gVerbose : Int) (usbInterfaceRef : Nat)
    (env : InterfaceEnv) :
    quiet (dealWithInterface gVerbose usbInterfaceRef env) =
      dealWithInterface 0 usbInterfaceRef env := by
  simp only [dealWithInterface]
  split_ifs <;>
    simp [quiet_append, quiet_dealWithInterface_opened, quiet_cons, quiet_nil,
      isInformational, informationalFormats]

theorem quiet_interfaceLoop (gVerbose : Int) (iterator : Nat)
    (interfaces : List (Nat × InterfaceEnv)) :
    ∀ nCount : Int,
      quiet (interfaceLoop gVerbose iterator interfaces nCount) =
        interfaceLoop 0 iterator interfaces nCount := by
  induction interfaces with
  | nil => intro _; rfl
  | cons hd tl ih =>
    intro nCount
    obtain ⟨r, env⟩ := hd
    simp only [interfaceLoop, quiet_append, ih]
    split_ifs <;>
      simp [quiet_dealWithInterface, quiet_cons, quiet_nil, isInformational]

theorem not_isInformational_openLoop (dev : Nat) (results : Nat → IOReturn) (m : Nat) :
    ∀ (i : Nat) (nAttempts : Int), nAttempts.toNat ≤ m →
      ∀ e ∈ (openLoop dev results i nAttempts).2, isInformational e = false := by
  induction m with
  | zero =>
    intro i nAttempts hm e he
    by_cases h0 : results i = 0
    · rw [openLoop_success dev results i nAttempts h0] at he
      simp only [List.mem_singleton] at he
      subst he
      rfl
    · rw [openLoop_fail_last dev results i nAttempts h0 (by omega)] at he
      simp only [List.mem_cons, List.mem_singleton, List.not_mem_nil, or_false] at he
      rcases he with he | he <;> subst he <;> rfl
  | succ m ih =>
    intro i nAttempts hm e he
    by_cases h0 : results i = 0
    · rw [openLoop_success dev results i nAttempts h0] at he
      simp only [List.mem_singleton] at he
      subst he
      rfl
    · by_cases h1 : nAttempts ≤ 1
      · rw [openLoop_fail_last dev results i nAttempts h0 h1] at he
        simp only [List.mem_cons, List.mem_singleton, List.not_mem_nil, or_false] at he
        rcases he with he | he <;> subst he <;> rfl
      · rw [openLoop_fail_more dev results i nAttempts h0 (by omega)] at he
        simp only [List.mem_append, List.mem_cons, List.mem_singleton, List.not_mem_nil,
          or_false] at he
        rcases he with (he | he | he) | he
        · subst he; rfl
        · subst he; rfl
        · subst he; rfl
        · exact ih (i + 1) (nAttempts - 1) (by omega) e he

theorem quiet_openLoop (dev : Nat) (results : Nat → IOReturn) :
    quiet (openLoop dev results 0 20).2 = (openLoop dev results 0 20).2 :=
  quiet_eq_self _ (not_isInformational_openLoop dev results 20 0 20 (by decide))

theorem quiet_dealWithDevice (gVerbose : Int) (usbDeviceRef : Nat) (env : DeviceEnv) :
    quiet (dealWithDevice gVerbose usbDeviceRef env) = dealWithDevice 0 usbDeviceRef env := by
  have henum : quiet (dealWithDevice_enumerate gVerbose env) =
      dealWithDevice_enumerate 0 env := by
    simp only [dealWithDevice_enumerate, quiet_append, quiet_interfaceLoop]
    split_ifs <;> simp [quiet_cons, quiet_nil, isInformational, informationalFormats]
  have hopened : quiet (dealWithDevice_opened gVerbose env) = dealWithDevice_opened 0 env := by
    simp only [dealWithDevice_opened, closeAndRelease]
    split_ifs <;>
      simp [quiet_append, henum, quiet_cons, quiet_nil, isInformational, informationalFormats]
  simp only [dealWithDevice]
  split_ifs <;>
    simp [quiet_append, quiet_openLoop, hopened, quiet_cons, quiet_nil, isInformational,
      informationalFormats]

theorem deviceLoop_found_eq (gVerbose : Int) (iterator : Nat)
    (devices : List (Nat × DeviceEnv)) :
    ∀ foundDevice : Int,
      (deviceLoop gVerbose iterator devices foundDevice).1 =
        (deviceLoop 0 iterator devices foundDevice).1 := by
  induction devices with
  | nil => intro _; rfl
  | cons hd tl ih =>
    intro _
    obtain ⟨r, env⟩ := hd
    simp only [deviceLoop, ih 1]

theorem quiet_deviceLoop (gVerbose : Int) (iterator : Nat)
    (devices : List (Nat × DeviceEnv)) :
    ∀ foundDevice : Int,
      quiet (deviceLoop gVerbose iterator devices foundDevice).2 =
        (deviceLoop 0 iterator devices foundDevice).2 := by
  induction devices with
  | nil => intro _; rfl
  | cons hd tl ih =>
    intro _
    obtain ⟨r, env⟩ := hd
    simp only [deviceLoop, quiet_append, quiet_dealWithDevice, ih 1]
    by_cases hg : gVerbose = 0 <;>
      simp [hg, quiet_cons, quiet_nil, isInformational, informationalFormats]

theorem quiet_ActivateDevices (gVerbose : Int) (env : ScanEnv) :
    quiet (ActivateDevices gVerbose env).2 = (ActivateDevices 0 env).2 := by
  have hdict : quiet (makeDictionary env.dictionary kVendorID kProductID).2 =
      (makeDictionary env.dictionary kVendorID kProductID).2 := by
    unfold makeDictionary
    split_ifs <;> rfl
  have hfound := deviceLoop_found_eq gVerbose env.iterator env.devices 0
  simp only [ActivateDevices]
  by_cases hp : env.ioMasterPort = 0
  · by_cases hd : (makeDictionary env.dictionary kVendorID kProductID).1 = 0
    · by_cases hg : gVerbose = 0
      · subst hg
        simp [hp, hd, quiet_append, quiet_deviceLoop, hdict, quiet_cons, quiet_nil,
          isInformational]
      · by_cases hf : (deviceLoop 0 env.iterator env.devices 0).1 = 0
        · simp [hp, hd, hg, hf, hfound, quiet_append, quiet_deviceLoop, hdict, quiet_cons,
            quiet_nil, isInformational, informationalFormats]
        · simp [hp, hd, hg, hf, hfound, quiet_append, quiet_deviceLoop, hdict, quiet_cons,
            quiet_nil, isInformational, informationalFormats]
    · simp [hp, hd, quiet_append, hdict, quiet_cons, quiet_nil, isInformational]
  · simp [hp, quiet_cons, quiet_nil, isInformational, informationalFormats]

theorem countP_isInformational_quiet (t : List Event) :
    (quiet t).countP isInformational = 0 := by
  rw [List.countP_eq_zero]
  intro e he
  have h := (List.mem_filter.mp he).2
  simpa using h

theorem quiet_powerCallback (gVerbose : Int) (rootPort msgType msgArgument : Nat)
    (scan : ScanEnv) :
    quiet (powerCallback gVerbose rootPort msgType msgArgument scan) =
      powerCallback 0 rootPort msgType msgArgument scan := by
  simp only [powerCallback]
  by_cases h1 : msgType = kIOMessageSystemHasPoweredOn
  · by_cases hg : gVerbose = 0 <;>
      simp [h1, hg, quiet_append, quiet_ActivateDevices, quiet_cons, quiet_nil,
        isInformational, informationalFormats]
  · by_cases h2 : msgType = kIOMessageCanSystemSleep ∨ msgType = kIOMessageSystemWillSleep <;>
      simp [h1, h2, quiet_cons, quiet_nil, isInformational]

theorem quiet_DeviceNotification (gVerbose : Int) (privateDataRef : Nat)
    (record : MyPrivateData) (messageType : Nat) :
    quiet (DeviceNotification gVerbose privateDataRef record messageType).2 =
      (DeviceNotification 0 privateDataRef record messageType).2 := by
  simp only [DeviceNotification]
  by_cases h1 : messageType = kIOMessageServiceIsTerminated
  · by_cases hg : gVerbose = 0 <;> by_cases hi : record.deviceInterface = 0 <;>
      simp [h1, hg, hi, quiet_append, quiet_cons, quiet_nil, isInformational,
        informationalFormats]
  · simp [h1, quiet_nil]

theorem countP_isInformational_DeviceAdded_silent (gNotifyPort iterator : Nat)
    (batch : List (Nat × AddedEnv)) :
    (DeviceAdded 0 gNotifyPort iterator batch).2.countP isInformational = 0 := by
  induction batch with
  | nil => rfl
  | cons hd tl ih =>
    obtain ⟨r, env⟩ := hd
    have hsession : (dealWithDevice 0 r env.session).countP isInformational = 0 := by
      rw [← quiet_dealWithDevice 0 r env.session]
      exact countP_isInformational_quiet _
    simp only [DeviceAdded, List.countP_append, hsession, ih]
    by_cases hk : env.addInterestNotification = 0 <;>
      simp [hk, List.countP_cons, isInformational, informationalFormats]

/-- The whole trace of a session on the device that never opens. -/
theorem dealWithDevice_deadDevice (gVerbose : Int) :
    dealWithDevice gVerbose 7 deadDevice =
      [Event.IOCreatePlugInInterfaceForService 7 PlugInType.kIOUSBDeviceUserClientTypeID,
       Event.QueryInterface 21 InterfaceID.kIOUSBDeviceInterfaceID197,
       Event.PlugInRelease 21] ++
      failedAttempts 22 20 19 ++
      [Event.USBDeviceOpen 22,
       Event.fprintf_stderr "Trying to open device, %d seconds left...\n" [Arg.int 1],
       Event.fprintf_stderr "dealWithDevice: unable to open device. ret = %08x\n"
         [Arg.int 0x2c5]] := by
  have hloop := openLoop_twenty 22 deadDevice.usbDeviceOpen 20 (by decide)
    (by intro j _; show (0x2c5 : Int) ≠ 0; decide) (Or.inr rfl)
  have h1 : deadDevice.dev = 22 := rfl
  simp only [dealWithDevice, h1, hloop]
  simp [deadDevice]

/-- C17, as stated, fails: with `gVerbose = 0` a failed control transfer, a failed
interface open and a failed device-open attempt are each reported on `stderr`. -/
theorem silent_mode_writes_failure_diagnostics :
    Event.fprintf_stderr "Error: %s " [Arg.errorName 7] ∈ (initCM6206 0 12 7 0 0).2 ∧
    Event.fprintf_stderr "Error while resetting registers\n" [] ∈ (initCM6206 0 12 7 0 0).2 ∧
    Event.fprintf_stderr "dealWithInterface: unable to open interface. ret = %08x\n"
      [Arg.int 0x2c5] ∈ dealWithInterface 0 42 seizedInterface ∧
    Event.fprintf_stderr "Trying to open device, %d seconds left...\n" [Arg.int 20] ∈
      dealWithDevice 0 7 deadDevice ∧
    (dealWithDevice 0 7 deadDevice).countP isDiagnostic = 21 := by
  refine ⟨by decide, by decide, by decide, ?_, ?_⟩
  · rw [dealWithDevice_deadDevice]
    decide
  · rw [dealWithDevice_deadDevice]
    decide

/-- C17, amended: `gVerbose` decides the informational messages only (the
activation success message, the "found" and "no device found" messages of the
scan, the wake-up message, the removal message and the name dumps).  The trace of
a scan, of a device session, of an interface claimer run, of an activation, of a
power event and of a removal notification with `gVerbose = 0` is the trace with
any `gVerbose` without its informational output, so the diagnostics of failing
steps are written in silent mode as in verbose mode; and a device-added batch
handled with `gVerbose = 0` writes no informational output. -/
theorem silent_mode_suppresses_informational (gVerbose : Int) (scan : ScanEnv)
    (usbDeviceRef : Nat) (session : DeviceEnv) (usbInterfaceRef : Nat) (claim : InterfaceEnv)
    (intf : Nat) (s1 s2 s3 : IOReturn)
    (rootPort msgType msgArgument : Nat)
    (privateDataRef : Nat) (record : MyPrivateData) (messageType : Nat)
    (gNotifyPort iterator : Nat) (batch : List (Nat × AddedEnv)) :
    (ActivateDevices 0 scan).2 = quiet (ActivateDevices gVerbose scan).2 ∧
    dealWithDevice 0 usbDeviceRef session = quiet (dealWithDevice gVerbose usbDeviceRef session) ∧
    dealWithInterface 0 usbInterfaceRef claim =
      quiet (dealWithInterface gVerbose usbInterfaceRef claim) ∧
    (initCM6206 0 intf s1 s2 s3).2 = quiet (initCM6206 gVerbose intf s1 s2 s3).2 ∧
    powerCallback 0 rootPort msgType msgArgument scan =
      quiet (powerCallback gVerbose rootPort msgType msgArgument scan) ∧
    (DeviceNotification 0 privateDataRef record messageType).2 =
      quiet (DeviceNotification gVerbose privateDataRef record messageType).2 ∧
    (ActivateDevices 0 scan).2.countP isInformational = 0 ∧
    (powerCallback 0 rootPort msgType msgArgument scan).countP isInformational = 0 ∧
    (DeviceNotification 0 privateDataRef record messageType).2.countP isInformational = 0 ∧
    (DeviceAdded 0 gNotifyPort iterator batch).2.countP isInformational = 0 := by
  refine ⟨(quiet_ActivateDevices gVerbose scan).symm,
    (quiet_dealWithDevice gVerbose usbDeviceRef session).symm,
    (quiet_dealWithInterface gVerbose usbInterfaceRef claim).symm,
    (quiet_initCM6206 gVerbose intf s1 s2 s3).symm,
    (quiet_powerCallback gVerbose rootPort msgType msgArgument scan).symm,
    (quiet_DeviceNotification gVerbose privateDataRef record messageType).symm,
    ?_, ?_, ?_, countP_isInformational_DeviceAdded_silent gNotifyPort iterator batch⟩
  · rw [← quiet_ActivateDevices 0 scan]
    exact countP_isInformational_quiet _
  · rw [← quiet_powerCallback 0 rootPort msgType msgArgument scan]
    exact countP_isInformational_quiet _
  · rw [← quiet_DeviceNotification 0 privateDataRef record messageType]
    exact countP_isInformational_quiet _

end CM6206
